import Mathlib

/-! # Bluetooth bandwidth-upgrade handler

A shallow embedding of `cpp/core/internal/bluetooth_bwu_handler.cc`.

The handler talks to one external collaborator, the Bluetooth medium adapter
(`bluetooth_medium_`).  The adapter is embedded as a record of state
transformers over an arbitrary adapter state `σ`, so that every theorem below
quantifies over every adapter behaviour.  Each call the handler makes on the
adapter, and each object it constructs, is appended to a chronological event
log kept next to the handler's own fields; the log is ghost state used to
state which calls were (not) made.
-/

namespace Nearby

/-! ## Data model -/

/-- Modelled from the spec: the client identity is "an opaque handle identifying
the local participant, passed through unchanged" (`ClientProxy*` in the source,
declared in `core/internal/client_proxy.h`). -/
abbrev ClientProxy := Nat

/-- Modelled from the spec: `ResolveRemoteDevice(identifier) → device|invalid`.
`BluetoothDevice` (declared in the platform layer) wraps a possibly-null
implementation handle. -/
structure BluetoothDevice where
  impl_ : Option Nat
  deriving DecidableEq, Repr

/-- The `BluetoothDevice::IsValid()` test: the implementation handle is set. -/
def BluetoothDevice.IsValid (d : BluetoothDevice) : Bool := d.impl_.isSome

/-- Modelled from the spec: `Connect(device, name) → socket|invalid`.
`BluetoothSocket` (declared in the platform layer) wraps a possibly-null
implementation handle. -/
structure BluetoothSocket where
  impl_ : Option Nat
  deriving DecidableEq, Repr

/-- The `BluetoothSocket::IsValid()` test: the implementation handle is set. -/
def BluetoothSocket.IsValid (s : BluetoothSocket) : Bool := s.impl_.isSome

/-- Modelled from the spec: a Channel "owns exactly one underlying socket".
`BluetoothEndpointChannel` (declared in `bluetooth_endpoint_channel.h`) is
recorded by its two constructor arguments. -/
structure BluetoothEndpointChannel where
  channel_name : String
  socket : BluetoothSocket
  deriving DecidableEq, Repr

/-- Modelled from the spec: the "inbound socket wrapper" of an accepted
connection, recorded by the two constructor arguments of
`BluetoothIncomingSocket`. -/
structure BluetoothIncomingSocket where
  name : String
  socket : BluetoothSocket
  deriving DecidableEq, Repr

/-- Modelled from the spec: an IncomingConnection "pairs a freshly accepted
inbound socket wrapper with its Channel" (`IncomingSocketConnection`). -/
structure IncomingSocketConnection where
  socket : BluetoothIncomingSocket
  channel : BluetoothEndpointChannel
  deriving DecidableEq, Repr

/-- The accept callback handed to the adapter in
`InitializeUpgradedMediumForEndpoint`:
`absl::bind_front(&BluetoothBwuHandler::OnIncomingBluetoothConnection, this,
client, service_id)`, recorded by its bound arguments. -/
structure AcceptedCallback where
  client : ClientProxy
  service_id : String
  deriving DecidableEq, Repr

/-- One entry of the chronological log: a call on the medium adapter, the
construction or closing of a resource, or a notification-sink invocation. -/
inductive Event where
  | GetMacAddress
  | IsAcceptingConnections (service_id : String)
  | StartAcceptingConnections (service_id : String) (accepted_cb : AcceptedCallback)
  | StopAcceptingConnections (service_id : String)
  | GetRemoteDevice (mac_address : String)
  | Connect (device : BluetoothDevice) (service_name : String)
  | MakeEndpointChannel (service_name : String) (socket : BluetoothSocket)
  | MakeIncomingSocket (service_id : String) (socket : BluetoothSocket)
  | SocketClose (socket : BluetoothSocket)
  | IncomingConnectionCb (client : ClientProxy) (connection : IncomingSocketConnection)
  deriving DecidableEq, Repr

/-- Modelled from the spec: the medium adapter contract of §6
(`IsAcceptingConnections`, `StartAcceptingConnections`,
`StopAcceptingConnections`, `GetLocalAddress`, `ResolveRemoteDevice`,
`Connect`), under the names the handler calls them by.  The adapter is opaque:
each operation is an arbitrary function of its arguments and of the adapter's
hidden state `σ`, returning a result and the next hidden state. -/
structure BluetoothClassic (σ : Type) where
  GetMacAddress : σ → String × σ
  IsAcceptingConnections : String → σ → Bool × σ
  StartAcceptingConnections : String → AcceptedCallback → σ → Bool × σ
  StopAcceptingConnections : String → σ → Bool × σ
  GetRemoteDevice : String → σ → BluetoothDevice × σ
  Connect : BluetoothDevice → String → σ → BluetoothSocket × σ

/-- Modelled from the spec: `HandlerState` is "a set of currently-active upgrade
service ids"; the member `active_service_ids_` is declared in the header, which
is not part of the sources.  A set is a duplicate-free list; the list order is
the iteration order. -/
structure ServiceIdSet where
  elems : List String
  nodup : elems.Nodup

/-- The empty set, the value of `active_service_ids_` after `clear()`. -/
def ServiceIdSet.clear : ServiceIdSet := ⟨[], List.nodup_nil⟩

/-- Set membership. -/
def ServiceIdSet.contains (s : ServiceIdSet) (id : String) : Bool := decide (id ∈ s.elems)

/-- Number of entries. -/
def ServiceIdSet.size (s : ServiceIdSet) : Nat := s.elems.length

/-- The list behind `emplace`: an id already present is not inserted again. -/
def emplaceList (l : List String) (id : String) : List String :=
  if id ∈ l then l else l ++ [id]

/-- The `emplace` of a set container: inserts the id unless it is present. -/
def ServiceIdSet.emplace (s : ServiceIdSet) (id : String) : ServiceIdSet :=
  ⟨emplaceList s.elems id, by
    unfold emplaceList
    split
    · exact s.nodup
    · rename_i hn
      exact List.Nodup.append s.nodup (List.nodup_singleton id) (by
        intro a ha hb
        simp only [List.mem_singleton] at hb
        exact hn (hb ▸ ha))⟩

/-! ## Credential payload -/

/-- A serialized payload: the sequence of its bytes.  A character of a
`std::string` is one byte, embedded as the code of the Lean character. -/
abbrev ByteArray := List Nat

/-- Modelled from the spec: the credential is "a tagged blob, one variant per
medium"; the variants named by the spec. -/
inductive Medium where
  | UNKNOWN_MEDIUM
  | BLUETOOTH
  | WIFI_LAN
  | WIFI_HOTSPOT
  | WIFI_DIRECT
  deriving DecidableEq, Repr

/-- Modelled from the spec: "for the Bluetooth variant, fields are: service name
(string), MAC address (string)".  The message type is generated code that is
not part of the sources; the handler uses its `has_service_name()`,
`has_mac_address()`, `service_name()` and `mac_address()` accessors, so each
field is an optional string: an absent field, or a field that was set (possibly
to the empty string). -/
structure BluetoothCredentials where
  service_name_ : Option String
  mac_address_ : Option String
  deriving DecidableEq, Repr

/-- The accessor `has_service_name()`: the field was set. -/
def BluetoothCredentials.has_service_name (c : BluetoothCredentials) : Bool :=
  c.service_name_.isSome

/-- The accessor `has_mac_address()`: the field was set. -/
def BluetoothCredentials.has_mac_address (c : BluetoothCredentials) : Bool :=
  c.mac_address_.isSome

/-- The accessor `service_name()`: the value, or the empty default. -/
def BluetoothCredentials.service_name (c : BluetoothCredentials) : String :=
  c.service_name_.getD ""

/-- The accessor `mac_address()`: the value, or the empty default. -/
def BluetoothCredentials.mac_address (c : BluetoothCredentials) : String :=
  c.mac_address_.getD ""

/-- Modelled from the spec: the credential message consumed by the target, a
medium tag and the Bluetooth sub-message (`UpgradePathInfo`, generated code that
is not part of the sources). -/
structure UpgradePathInfo where
  medium : Medium
  bluetooth_credentials_ : Option BluetoothCredentials
  deriving DecidableEq, Repr

/-- The accessor `bluetooth_credentials()`: the sub-message, or the default
instance with no field set. -/
def UpgradePathInfo.bluetooth_credentials (u : UpgradePathInfo) : BluetoothCredentials :=
  u.bluetooth_credentials_.getD ⟨none, none⟩

/-- The byte tagging each medium variant on the wire. -/
def Medium.tag : Medium → Nat
  | .UNKNOWN_MEDIUM => 0
  | .BLUETOOTH => 2
  | .WIFI_HOTSPOT => 3
  | .WIFI_LAN => 5
  | .WIFI_DIRECT => 8

/-- The medium variant a tag byte stands for. -/
def Medium.ofTag (t : Nat) : Option Medium :=
  if t = 0 then some .UNKNOWN_MEDIUM
  else if t = 2 then some .BLUETOOTH
  else if t = 3 then some .WIFI_HOTSPOT
  else if t = 5 then some .WIFI_LAN
  else if t = 8 then some .WIFI_DIRECT
  else none

/-- Base-128 length encoding, least significant group first; every byte but the
last has its high bit set.  The first argument bounds the number of groups. -/
def putVarintFuel : Nat → Nat → List Nat
  | 0, n => [n % 128]
  | fuel + 1, n => if n < 128 then [n] else (n % 128 + 128) :: putVarintFuel fuel (n / 128)

/-- The length encoding of `n`. -/
def putVarint (n : Nat) : List Nat := putVarintFuel n n

/-- Reads one base-128 length and returns it with the remaining bytes. -/
def getVarint : List Nat → Option (Nat × List Nat)
  | [] => none
  | b :: rest =>
    if b < 128 then some (b, rest)
    else match getVarint rest with
      | none => none
      | some (v, rest2) => some ((b - 128) + 128 * v, rest2)

/-- The bytes of a string. -/
def stringBytes (s : String) : List Nat := s.data.map Char.toNat

/-- The string made of the given bytes. -/
def bytesString (bs : List Nat) : String := String.mk (bs.map Char.ofNat)

/-- One field on the wire: field number, length, bytes.  An absent field
contributes nothing. -/
def putField (number : Nat) : Option String → List Nat
  | none => []
  | some s => number :: (putVarint s.length ++ stringBytes s)

/-- Modelled from the spec: the "serialized credential payload" is the medium
tag followed by the fields of the credential that are set (field 1 the service
name, field 2 the MAC address).  The serialization layer is not part of the
sources. -/
def SerializeUpgradePathInfo (u : UpgradePathInfo) : ByteArray :=
  u.medium.tag ::
    (match u.bluetooth_credentials_ with
     | none => []
     | some c => putField 1 c.service_name_ ++ putField 2 c.mac_address_)

/-- Stores a parsed field in the credential; unknown field numbers are skipped. -/
def setField (c : BluetoothCredentials) (number : Nat) (s : String) : BluetoothCredentials :=
  if number = 1 then { c with service_name_ := some s }
  else if number = 2 then { c with mac_address_ := some s }
  else c

/-- Parses a sequence of fields into a credential, starting from `c`; a
truncated field is an error.  The first argument bounds the number of fields. -/
def parseFields : Nat → List Nat → BluetoothCredentials → Option BluetoothCredentials
  | _, [], c => some c
  | 0, _ :: _, _ => none
  | fuel + 1, number :: rest, c =>
    match getVarint rest with
    | none => none
    | some (len, rest2) =>
      if rest2.length < len then none
      else parseFields fuel (rest2.drop len) (setField c number (bytesString (rest2.take len)))

/-- Modelled from the spec: decoding of a credential payload on the target, the
inverse of `SerializeUpgradePathInfo`. -/
def ParseUpgradePathInfo : ByteArray → Option UpgradePathInfo
  | [] => none
  | t :: rest =>
    match Medium.ofTag t with
    | none => none
    | some m =>
      match parseFields rest.length rest ⟨none, none⟩ with
      | none => none
      | some c => some ⟨m, some c⟩

/-- Modelled from the spec: `parser::ForBwuBluetoothPathAvailable`, declared in
`core/internal/offline_frames.h`, builds the "serialized credential payload
containing at minimum the derived service id and the local address". -/
def ForBwuBluetoothPathAvailable (service_id mac_address : String) : ByteArray :=
  SerializeUpgradePathInfo ⟨Medium.BLUETOOTH, some ⟨some service_id, some mac_address⟩⟩

/-- The handler: the adapter's hidden state, the active-service-id set, and the
event log. -/
structure BluetoothBwuHandler (σ : Type) where
  bluetooth_medium_ : σ
  active_service_ids_ : ServiceIdSet
  events : List Event

namespace BluetoothBwuHandler

variable {σ : Type}

/-! ## Calls on the adapter, logged -/

/-- The call `bluetooth_medium_.GetMacAddress()`. -/
def callGetMacAddress (bt : BluetoothClassic σ) (h : BluetoothBwuHandler σ) :
    String × BluetoothBwuHandler σ :=
  let r := bt.GetMacAddress h.bluetooth_medium_
  (r.1, { h with bluetooth_medium_ := r.2, events := h.events ++ [Event.GetMacAddress] })

/-- The call `bluetooth_medium_.IsAcceptingConnections(service_id)`. -/
def callIsAcceptingConnections (bt : BluetoothClassic σ) (h : BluetoothBwuHandler σ)
    (service_id : String) : Bool × BluetoothBwuHandler σ :=
  let r := bt.IsAcceptingConnections service_id h.bluetooth_medium_
  (r.1, { h with bluetooth_medium_ := r.2,
                 events := h.events ++ [Event.IsAcceptingConnections service_id] })

/-- The call `bluetooth_medium_.StartAcceptingConnections(service_id, cb)`. -/
def callStartAcceptingConnections (bt : BluetoothClassic σ) (h : BluetoothBwuHandler σ)
    (service_id : String) (accepted_cb : AcceptedCallback) : Bool × BluetoothBwuHandler σ :=
  let r := bt.StartAcceptingConnections service_id accepted_cb h.bluetooth_medium_
  (r.1, { h with bluetooth_medium_ := r.2,
                 events := h.events ++ [Event.StartAcceptingConnections service_id accepted_cb] })

/-- The call `bluetooth_medium_.StopAcceptingConnections(service_id)`. -/
def callStopAcceptingConnections (bt : BluetoothClassic σ) (h : BluetoothBwuHandler σ)
    (service_id : String) : Bool × BluetoothBwuHandler σ :=
  let r := bt.StopAcceptingConnections service_id h.bluetooth_medium_
  (r.1, { h with bluetooth_medium_ := r.2,
                 events := h.events ++ [Event.StopAcceptingConnections service_id] })

/-- The call `bluetooth_medium_.GetRemoteDevice(mac_address)`. -/
def callGetRemoteDevice (bt : BluetoothClassic σ) (h : BluetoothBwuHandler σ)
    (mac_address : String) : BluetoothDevice × BluetoothBwuHandler σ :=
  let r := bt.GetRemoteDevice mac_address h.bluetooth_medium_
  (r.1, { h with bluetooth_medium_ := r.2,
                 events := h.events ++ [Event.GetRemoteDevice mac_address] })

/-- The call `bluetooth_medium_.Connect(device, service_name)`. -/
def callConnect (bt : BluetoothClassic σ) (h : BluetoothBwuHandler σ)
    (device : BluetoothDevice) (service_name : String) :
    BluetoothSocket × BluetoothBwuHandler σ :=
  let r := bt.Connect device service_name h.bluetooth_medium_
  (r.1, { h with bluetooth_medium_ := r.2,
                 events := h.events ++ [Event.Connect device service_name] })

/-- The expression `std::make_unique<BluetoothEndpointChannel>(name, socket)`:
the channel is constructed, and the pointer returned is never null. -/
def makeEndpointChannel (h : BluetoothBwuHandler σ) (service_name : String)
    (socket : BluetoothSocket) : Option BluetoothEndpointChannel × BluetoothBwuHandler σ :=
  (some ⟨service_name, socket⟩,
   { h with events := h.events ++ [Event.MakeEndpointChannel service_name socket] })

/-- The call `socket.Close()`. -/
def closeSocket (h : BluetoothBwuHandler σ) (socket : BluetoothSocket) :
    BluetoothBwuHandler σ :=
  { h with events := h.events ++ [Event.SocketClose socket] }

/-! ## Revert -/

/-- The loop of `Revert`: one stop call per id, its result discarded. -/
def RevertLoop (bt : BluetoothClassic σ) :
    List String → BluetoothBwuHandler σ → BluetoothBwuHandler σ
  | [], h => h
  | service_id :: rest, h => RevertLoop bt rest (callStopAcceptingConnections bt h service_id).2

/-- The method `BluetoothBwuHandler::Revert()`. -/
def Revert (bt : BluetoothClassic σ) (h : BluetoothBwuHandler σ) : BluetoothBwuHandler σ :=
  let h1 := RevertLoop bt h.active_service_ids_.elems h
  { h1 with active_service_ids_ := ServiceIdSet.clear }

/-! ## The accept callback -/

/-- The method `BluetoothBwuHandler::OnIncomingBluetoothConnection`: builds the
channel, then the inbound socket wrapper, pairs them, and invokes the
notification sink `incoming_connection_cb`. -/
def OnIncomingBluetoothConnection (h : BluetoothBwuHandler σ) (client : ClientProxy)
    (service_id : String) (socket : BluetoothSocket) : BluetoothBwuHandler σ :=
  let channel : BluetoothEndpointChannel := ⟨service_id, socket⟩
  let connection : IncomingSocketConnection := ⟨⟨service_id, socket⟩, channel⟩
  { h with events := h.events ++
      [Event.MakeEndpointChannel service_id socket,
       Event.MakeIncomingSocket service_id socket,
       Event.IncomingConnectionCb client connection] }

/-! ## Initiator side -/

/-- The last two statements of `InitializeUpgradedMediumForEndpoint`: the
derived id is cached in `active_service_ids_` and the credential payload is
returned. -/
def cacheAndReply (h : BluetoothBwuHandler σ) (upgrade_service_id mac_address : String) :
    ByteArray × BluetoothBwuHandler σ :=
  (ForBwuBluetoothPathAvailable upgrade_service_id mac_address,
   { h with active_service_ids_ := h.active_service_ids_.emplace upgrade_service_id })

/-- The method `BluetoothBwuHandler::InitializeUpgradedMediumForEndpoint`.
`WrapUpgradeServiceId` is `Utils::WrapUpgradeServiceId`, which is not part of
the sources and is taken as a parameter. -/
def InitializeUpgradedMediumForEndpoint (WrapUpgradeServiceId : String → String)
    (bt : BluetoothClassic σ) (h : BluetoothBwuHandler σ) (client : ClientProxy)
    (service_id : String) (_endpoint_id : String) : ByteArray × BluetoothBwuHandler σ :=
  let upgrade_service_id := WrapUpgradeServiceId service_id
  let mac := callGetMacAddress bt h
  let mac_address := mac.1
  if mac_address.isEmpty then
    ([], mac.2)
  else
    let accepting := callIsAcceptingConnections bt mac.2 upgrade_service_id
    if !accepting.1 then
      let started :=
        callStartAcceptingConnections bt accepting.2 upgrade_service_id ⟨client, service_id⟩
      if !started.1 then
        ([], started.2)
      else
        cacheAndReply started.2 upgrade_service_id mac_address
    else
      cacheAndReply accepting.2 upgrade_service_id mac_address

/-! ## Target side -/

/-- The method `BluetoothBwuHandler::CreateUpgradedEndpointChannel`; `none` is
the null pointer. -/
def CreateUpgradedEndpointChannel (bt : BluetoothClassic σ) (h : BluetoothBwuHandler σ)
    (_client : ClientProxy) (_service_id : String) (_endpoint_id : String)
    (upgrade_path_info : UpgradePathInfo) :
    Option BluetoothEndpointChannel × BluetoothBwuHandler σ :=
  let bluetooth_credentials := upgrade_path_info.bluetooth_credentials
  if !bluetooth_credentials.has_service_name || !bluetooth_credentials.has_mac_address then
    (none, h)
  else
    let service_name := bluetooth_credentials.service_name
    let mac_address := bluetooth_credentials.mac_address
    let device := callGetRemoteDevice bt h mac_address
    if !device.1.IsValid then
      (none, device.2)
    else
      let socket := callConnect bt device.2 device.1 service_name
      if !socket.1.IsValid then
        (none, socket.2)
      else
        let channel := makeEndpointChannel socket.2 service_name socket.1
        match channel.1 with
        | none => (none, closeSocket channel.2 socket.1)
        | some c => (some c, channel.2)

/-! ## What the adapter answers during one call -/

/-- The answer of the adapter to the `GetMacAddress` call made from state `h`. -/
def localAddress (bt : BluetoothClassic σ) (h : BluetoothBwuHandler σ) : String :=
  (bt.GetMacAddress h.bluetooth_medium_).1

/-- The answer of the adapter to the `IsAcceptingConnections(id)` call that
follows `GetMacAddress`. -/
def alreadyAccepting (bt : BluetoothClassic σ) (h : BluetoothBwuHandler σ) (id : String) : Bool :=
  (bt.IsAcceptingConnections id (bt.GetMacAddress h.bluetooth_medium_).2).1

/-- The answer of the adapter to the `StartAcceptingConnections(id, cb)` call
that follows `GetMacAddress` and `IsAcceptingConnections(id)`. -/
def listenerStarts (bt : BluetoothClassic σ) (h : BluetoothBwuHandler σ) (id : String)
    (cb : AcceptedCallback) : Bool :=
  (bt.StartAcceptingConnections id cb
    (bt.IsAcceptingConnections id (bt.GetMacAddress h.bluetooth_medium_).2).2).1

/-- The answer of the adapter to the `GetRemoteDevice(mac_address)` call made
from state `h`. -/
def resolvedDevice (bt : BluetoothClassic σ) (h : BluetoothBwuHandler σ)
    (mac_address : String) : BluetoothDevice :=
  (bt.GetRemoteDevice mac_address h.bluetooth_medium_).1

/-- The answer of the adapter to the `Connect(device, service_name)` call that
follows `GetRemoteDevice(mac_address)`, `device` being the resolved device. -/
def connectedSocket (bt : BluetoothClassic σ) (h : BluetoothBwuHandler σ)
    (mac_address service_name : String) : BluetoothSocket :=
  (bt.Connect (bt.GetRemoteDevice mac_address h.bluetooth_medium_).1 service_name
    (bt.GetRemoteDevice mac_address h.bluetooth_medium_).2).1

/-! ## The target side with a channel constructor that may fail -/

/-- The expression `std::make_unique<BluetoothEndpointChannel>(name, socket)`
with its outcome left open: `make_unique` yields the channel, or none for the
null pointer the source tests for.  A channel that is constructed is logged. -/
def makeEndpointChannelWith
    (make_unique : String → BluetoothSocket → Option BluetoothEndpointChannel)
    (h : BluetoothBwuHandler σ) (service_name : String) (socket : BluetoothSocket) :
    Option BluetoothEndpointChannel × BluetoothBwuHandler σ :=
  match make_unique service_name socket with
  | none => (none, h)
  | some c =>
    (some c, { h with events := h.events ++ [Event.MakeEndpointChannel service_name socket] })

/-- The method `BluetoothBwuHandler::CreateUpgradedEndpointChannel` over a
channel constructor whose outcome is left open, so that the branch
`if (channel == nullptr) { socket.Close(); return nullptr; }` can be taken. -/
def CreateUpgradedEndpointChannelWith
    (make_unique : String → BluetoothSocket → Option BluetoothEndpointChannel)
    (bt : BluetoothClassic σ) (h : BluetoothBwuHandler σ)
    (_client : ClientProxy) (_service_id : String) (_endpoint_id : String)
    (upgrade_path_info : UpgradePathInfo) :
    Option BluetoothEndpointChannel × BluetoothBwuHandler σ :=
  let bluetooth_credentials := upgrade_path_info.bluetooth_credentials
  if !bluetooth_credentials.has_service_name || !bluetooth_credentials.has_mac_address then
    (none, h)
  else
    let service_name := bluetooth_credentials.service_name
    let mac_address := bluetooth_credentials.mac_address
    let device := callGetRemoteDevice bt h mac_address
    if !device.1.IsValid then
      (none, device.2)
    else
      let socket := callConnect bt device.2 device.1 service_name
      if !socket.1.IsValid then
        (none, socket.2)
      else
        let channel := makeEndpointChannelWith make_unique socket.2 service_name socket.1
        match channel.1 with
        | none => (none, closeSocket channel.2 socket.1)
        | some c => (some c, channel.2)

/-- The channel constructor of the source: the pointer is never null. -/
def makeUniqueChannel (service_name : String) (socket : BluetoothSocket) :
    Option BluetoothEndpointChannel :=
  some ⟨service_name, socket⟩

/-- A channel constructor that fails, yielding the null pointer. -/
def makeUniqueNull (_service_name : String) (_socket : BluetoothSocket) :
    Option BluetoothEndpointChannel :=
  none

/-! ## Accept events -/

/-- An invocation of an accept callback by the adapter: the callback installed
by `InitializeUpgradedMediumForEndpoint` is `OnIncomingBluetoothConnection` with
`client` and `service_id` bound, applied to the accepted socket. -/
def invokeAcceptedCallback (h : BluetoothBwuHandler σ) (cb : AcceptedCallback)
    (socket : BluetoothSocket) : BluetoothBwuHandler σ :=
  OnIncomingBluetoothConnection h cb.client cb.service_id socket

/-- A sequence of accept events reported by the adapter, each delivered to its
accept callback in turn. -/
def deliverAccepts :
    List (AcceptedCallback × BluetoothSocket) → BluetoothBwuHandler σ → BluetoothBwuHandler σ
  | [], h => h
  | (cb, socket) :: rest, h => deliverAccepts rest (invokeAcceptedCallback h cb socket)

/-- The IncomingConnection handed to the sink for an accept event: socket
wrapper and channel around the accepted socket, labelled with the bound service
id. -/
def incomingConnectionOf (cb : AcceptedCallback) (socket : BluetoothSocket) :
    IncomingSocketConnection :=
  ⟨⟨cb.service_id, socket⟩, ⟨cb.service_id, socket⟩⟩

end BluetoothBwuHandler

/-! ## A simulated adapter -/

/-- Hidden state of a simulated adapter: its local address, the ids it accepts
on, whether starting and stopping succeed, and what resolving and connecting
return. -/
structure SimulatedMedium where
  mac_address : String
  accepting : List String
  start_ok : Bool
  stop_ok : Bool
  device : BluetoothDevice
  socket : BluetoothSocket

/-- The simulated adapter: it accepts on an id once a start for it succeeded and
until a stop for it. -/
def simulatedBluetooth : BluetoothClassic SimulatedMedium where
  GetMacAddress := fun m => (m.mac_address, m)
  IsAcceptingConnections := fun id m => (decide (id ∈ m.accepting), m)
  StartAcceptingConnections := fun id _ m =>
    if m.start_ok then (true, { m with accepting := id :: m.accepting }) else (false, m)
  StopAcceptingConnections := fun id m =>
    (m.stop_ok && decide (id ∈ m.accepting),
     { m with accepting := m.accepting.filter (fun x => x != id) })
  GetRemoteDevice := fun _ m => (m.device, m)
  Connect := fun _ _ m => (m.socket, m)

/-- A simulated adapter state with the given address and outcomes, accepting on
nothing. -/
def simulatedMedium (mac_address : String) (start_ok stop_ok : Bool)
    (device : BluetoothDevice) (socket : BluetoothSocket) : SimulatedMedium :=
  ⟨mac_address, [], start_ok, stop_ok, device, socket⟩

/-- A handler over the simulated adapter with the given active ids and an empty
log. -/
def simulatedHandler (m : SimulatedMedium) (ids : ServiceIdSet) :
    BluetoothBwuHandler SimulatedMedium :=
  ⟨m, ids, []⟩

/-- The derivation used in the examples: a fixed suffix is appended. -/
def wrapWithSuffix (service_id : String) : String := service_id ++ "_UPGRADE"

/-- The initiator of the example scenarios: local address `AA:BB:CC:DD:EE:FF`,
a listener that starts, no active id. -/
def exampleInitiator : BluetoothBwuHandler SimulatedMedium :=
  simulatedHandler (simulatedMedium "AA:BB:CC:DD:EE:FF" true true ⟨some 1⟩ ⟨some 2⟩)
    ServiceIdSet.clear

/-- A target whose adapter resolves every address to the device `1` and connects
with the socket `2`. -/
def exampleTarget : BluetoothBwuHandler SimulatedMedium :=
  simulatedHandler (simulatedMedium "" true true ⟨some 1⟩ ⟨some 2⟩) ServiceIdSet.clear

/-- A target whose adapter cannot resolve the remote device. -/
def exampleTargetUnresolved : BluetoothBwuHandler SimulatedMedium :=
  simulatedHandler (simulatedMedium "" true true ⟨none⟩ ⟨some 2⟩) ServiceIdSet.clear

/-- A target whose adapter resolves the device but fails to connect. -/
def exampleTargetUnconnected : BluetoothBwuHandler SimulatedMedium :=
  simulatedHandler (simulatedMedium "" true true ⟨some 1⟩ ⟨none⟩) ServiceIdSet.clear

/-- A handler with two active ids whose adapter fails every stop call. -/
def exampleAccepting : BluetoothBwuHandler SimulatedMedium :=
  simulatedHandler (simulatedMedium "AA:BB:CC:DD:EE:FF" true false ⟨some 1⟩ ⟨some 2⟩)
    ((ServiceIdSet.clear.emplace (wrapWithSuffix "svc1")).emplace (wrapWithSuffix "svc2"))

/-! ## Reading the log -/

/-- The notification-sink invocations of a log, in order. -/
def sinkInvocations : List Event → List (ClientProxy × IncomingSocketConnection)
  | [] => []
  | Event.IncomingConnectionCb client connection :: rest =>
    (client, connection) :: sinkInvocations rest
  | _ :: rest => sinkInvocations rest

/-- The `StartAcceptingConnections` calls of a log, in order. -/
def startCalls : List Event → List (String × AcceptedCallback)
  | [] => []
  | Event.StartAcceptingConnections service_id cb :: rest => (service_id, cb) :: startCalls rest
  | _ :: rest => startCalls rest

/-- The adapter contract "`IsAcceptingConnections(id)` is true once
`StartAcceptingConnections(id)` has succeeded": after a successful start, and
the address query that opens the next `InitializeUpgradedMediumForEndpoint`,
the adapter answers that it is accepting on the id. -/
def AcceptsOnceStarted {σ : Type} (bt : BluetoothClassic σ) : Prop :=
  ∀ (id : String) (cb : AcceptedCallback) (m : σ),
    (bt.StartAcceptingConnections id cb m).1 = true →
      (bt.IsAcceptingConnections id
        (bt.GetMacAddress (bt.StartAcceptingConnections id cb m).2).2).1 = true

/-- The two states of the handler's state machine. -/
inductive Phase where
  | Idle
  | Accepting
  deriving DecidableEq, Repr

/-- The state a handler is in: Idle with no active id, Accepting otherwise. -/
def phase {σ : Type} (h : BluetoothBwuHandler σ) : Phase :=
  if h.active_service_ids_.elems.isEmpty then Phase.Idle else Phase.Accepting

/-- An adapter that starts every listener it is asked for and reports, on every
query, that it is not accepting. -/
def forgetfulBluetooth : BluetoothClassic SimulatedMedium where
  GetMacAddress := fun m => (m.mac_address, m)
  IsAcceptingConnections := fun _ m => (false, m)
  StartAcceptingConnections := fun id _ m => (true, { m with accepting := id :: m.accepting })
  StopAcceptingConnections := fun id m =>
    (true, { m with accepting := m.accepting.filter (fun x => x != id) })
  GetRemoteDevice := fun _ m => (m.device, m)
  Connect := fun _ _ m => (m.socket, m)

/-- An initiator whose adapter has no local address. -/
def exampleNoAddress : BluetoothBwuHandler SimulatedMedium :=
  simulatedHandler (simulatedMedium "" true true ⟨some 1⟩ ⟨some 2⟩) ServiceIdSet.clear

/-- An initiator whose adapter refuses to start a listener. -/
def exampleRefusing : BluetoothBwuHandler SimulatedMedium :=
  simulatedHandler (simulatedMedium "AA:BB:CC:DD:EE:FF" false true ⟨some 1⟩ ⟨some 2⟩)
    ServiceIdSet.clear

/-- The events that are calls on the medium adapter. -/
def Event.isMediumCall : Event → Bool
  | .GetMacAddress => true
  | .IsAcceptingConnections _ => true
  | .StartAcceptingConnections _ _ => true
  | .StopAcceptingConnections _ => true
  | .GetRemoteDevice _ => true
  | .Connect _ _ => true
  | _ => false

/-- The adapter calls of a log, in order. -/
def mediumCalls (events : List Event) : List Event :=
  events.filter Event.isMediumCall

/-! # Scan manager

A shallow embedding of `presence/implementation/scan_manager.cc`.  The BLE
medium is an external collaborator, embedded like the Bluetooth adapter as a
record of state transformers over a hidden state `μ`.  Client callbacks are
recorded by a handle, and each invocation is appended to a log.  The mutex is
not part of the embedding: the operations are taken one at a time. -/

namespace Presence

/-- The status a BLE operation reports (`api::ble_v2::BleOperationStatus`,
declared in the platform layer); the values the scan manager and its test
name. -/
inductive BleOperationStatus where
  | kUnknown
  | kSucceeded
  | kFailed
  deriving DecidableEq, Repr

/-- The values of `Status::Value` the scan manager returns. -/
inductive StatusValue where
  | kSuccess
  | kError
  deriving DecidableEq, Repr

/-- The result type `Status` of the scan manager's operations. -/
structure Status where
  value : StatusValue
  deriving DecidableEq, Repr

/-- A discovered device (`PresenceDevice`, declared in
`presence/presence_device.h`), an opaque value. -/
abbrev PresenceDevice := Nat

/-- The default-constructed `PresenceDevice()`. -/
def defaultPresenceDevice : PresenceDevice := 0

/-- A scan request (`ScanRequest`), an opaque value passed on to the medium. -/
abbrev ScanRequest := Nat

/-- The struct `BleDeviceFoundCallback`: its `device_found_cb` is client code,
recorded by a handle. -/
structure BleDeviceFoundCallback where
  device_found_cb : Nat
  deriving DecidableEq, Repr

/-- The struct `ScanningCallback` the client passes to `StartScan`: two
closures of client code, recorded by handles. -/
structure ScanningCallback where
  start_scanning_result : Nat
  advertisement_found_cb : Nat
  deriving DecidableEq, Repr

/-- The `ScanningCallback` that `StartScan` hands to the medium: the client's
`start_scanning_result`, and an `advertisement_found_cb` that captures the
client's one together with the manager and the drawn id. -/
structure WrappedScanningCallback where
  start_scanning_result : Nat
  advert_found_cb : Nat
  id : Nat
  deriving DecidableEq, Repr

/-- One entry of the scan manager's log. -/
inductive ScanEvent where
  | StartScanning (scan_request : ScanRequest) (callback : WrappedScanningCallback)
  | StopScanning
  | DeviceFoundCb (device_found_cb : Nat) (pd : PresenceDevice)
  | AdvertisementFoundCb (advert_found_cb : Nat)
  deriving DecidableEq, Repr

/-- The `ScanningSession` the medium returns from `StartScanning`: its
`stop_scanning` closure, acting on the medium's hidden state. -/
structure ScanningSession (μ : Type) where
  stop_scanning : μ → BleOperationStatus × μ

/-- The BLE medium (`mediums_->GetBle()`), an opaque collaborator. -/
structure Ble (μ : Type) where
  StartScanning : ScanRequest → WrappedScanningCallback → μ → ScanningSession μ × μ

/-- The member `scanning_callbacks_`, an
`absl::flat_hash_map<uint64_t, BleDeviceFoundCallback>`: a list of entries with
distinct keys. -/
structure ScanningCallbacksMap where
  entries : List (Nat × BleDeviceFoundCallback)
  nodup : (entries.map Prod.fst).Nodup

/-- The empty map. -/
def ScanningCallbacksMap.empty : ScanningCallbacksMap := ⟨[], List.nodup_nil⟩

/-- The lookup `find(id)`: the callback registered under `id`, or none for
`end()`. -/
def ScanningCallbacksMap.find (m : ScanningCallbacksMap) (id : Nat) :
    Option BleDeviceFoundCallback :=
  (m.entries.find? (fun e => e.1 == id)).map Prod.snd

/-- The number of entries, `size()`. -/
def ScanningCallbacksMap.size (m : ScanningCallbacksMap) : Nat := m.entries.length

/-- The entries after `emplace(id, cb)`: a key already present keeps its entry
and nothing is inserted. -/
def emplaceEntries (l : List (Nat × BleDeviceFoundCallback)) (id : Nat)
    (cb : BleDeviceFoundCallback) : List (Nat × BleDeviceFoundCallback) :=
  if id ∈ l.map Prod.fst then l else l ++ [(id, cb)]

/-- The `emplace(id, cb)` of the map. -/
def ScanningCallbacksMap.emplace (m : ScanningCallbacksMap) (id : Nat)
    (cb : BleDeviceFoundCallback) : ScanningCallbacksMap :=
  ⟨emplaceEntries m.entries id cb, by
    unfold emplaceEntries
    split
    · exact m.nodup
    · rename_i hn
      rw [List.map_append]
      exact List.Nodup.append m.nodup (List.nodup_singleton id) (by
        intro a ha hb
        simp only [List.map_cons, List.map_nil, List.mem_singleton] at hb
        exact hn (hb ▸ ha))⟩

/-- The `erase(id)` of the map. -/
def ScanningCallbacksMap.erase (m : ScanningCallbacksMap) (id : Nat) : ScanningCallbacksMap :=
  ⟨m.entries.filter (fun e => e.1 != id),
    List.Nodup.sublist (List.Sublist.map Prod.fst (List.filter_sublist m.entries)) m.nodup⟩

/-- The scan manager: the medium's hidden state, the registered callbacks, and
the log. -/
structure ScanManager (μ : Type) where
  mediums_ : μ
  scanning_callbacks_ : ScanningCallbacksMap
  events : List ScanEvent

/-- The `ScanSession` returned by `StartScan`: its `stop_scan_callback` captures
the medium session's `stop_scanning`, the manager, and the drawn id. -/
structure ScanSession (μ : Type) where
  scanning_session_cb : μ → BleOperationStatus × μ
  id : Nat

namespace ScanManager

variable {μ : Type}

/-- The method `ScanManager::ScanningCallbacksLengthForTest`. -/
def ScanningCallbacksLengthForTest (mgr : ScanManager μ) : Nat :=
  mgr.scanning_callbacks_.size

/-- The method `ScanManager::NotifyFoundBle`. -/
def NotifyFoundBle (mgr : ScanManager μ) (id : Nat) (pd : PresenceDevice) :
    Status × ScanManager μ :=
  match mgr.scanning_callbacks_.find id with
  | none => (⟨StatusValue.kError⟩, mgr)
  | some it =>
    (⟨StatusValue.kSuccess⟩,
     { mgr with events := mgr.events ++ [ScanEvent.DeviceFoundCb it.device_found_cb pd] })

/-- The method `ScanManager::StartScan`; `id` is the value drawn from
`absl::uniform_int_distribution<uint64_t>(0, UINT64_MAX)`. -/
def StartScan (ble : Ble μ) (mgr : ScanManager μ) (id : Nat) (scan_request : ScanRequest)
    (device_found_callback : BleDeviceFoundCallback) (cb : ScanningCallback) :
    ScanSession μ × ScanManager μ :=
  let callback : WrappedScanningCallback :=
    ⟨cb.start_scanning_result, cb.advertisement_found_cb, id⟩
  let started := ble.StartScanning scan_request callback mgr.mediums_
  let scanning_session := started.1
  let modified_scanning_session : ScanSession μ := ⟨scanning_session.stop_scanning, id⟩
  (modified_scanning_session,
   { mediums_ := started.2,
     scanning_callbacks_ := mgr.scanning_callbacks_.emplace id device_found_callback,
     events := mgr.events ++ [ScanEvent.StartScanning scan_request callback] })

/-- The closure `stop_scan_callback` of a `ScanSession`. -/
def stop_scan_callback (session : ScanSession μ) (mgr : ScanManager μ) :
    Status × ScanManager μ :=
  match mgr.scanning_callbacks_.find session.id with
  | none => (⟨StatusValue.kError⟩, mgr)
  | some _ =>
    let stopped := session.scanning_session_cb mgr.mediums_
    let mgr2 : ScanManager μ :=
      { mediums_ := stopped.2,
        scanning_callbacks_ := mgr.scanning_callbacks_.erase session.id,
        events := mgr.events ++ [ScanEvent.StopScanning] }
    let status := stopped.1
    if status = BleOperationStatus.kFailed ∨ status = BleOperationStatus.kUnknown then
      (⟨StatusValue.kError⟩, mgr2)
    else
      (⟨StatusValue.kSuccess⟩, mgr2)

/-- The closure `advertisement_found_cb` that `StartScan` hands to the medium:
it notifies the manager under the drawn id with a default device, discards the
status, and calls the client's callback. -/
def advertisement_found_cb (callback : WrappedScanningCallback) (mgr : ScanManager μ) :
    ScanManager μ :=
  let notified := NotifyFoundBle mgr callback.id defaultPresenceDevice
  { notified.2 with
      events := notified.2.events ++ [ScanEvent.AdvertisementFoundCb callback.advert_found_cb] }

end ScanManager

/-- Hidden state of a simulated BLE medium: the number of running scans and the
status its stop operation reports. -/
structure SimulatedBle where
  scanning : Nat
  stop_status : BleOperationStatus

/-- The simulated BLE medium. -/
def simulatedBle : Ble SimulatedBle where
  StartScanning := fun _ _ m =>
    (⟨fun m2 => (m2.stop_status, { m2 with scanning := m2.scanning - 1 })⟩,
     { m with scanning := m.scanning + 1 })

/-- A scan manager with no registered callback over a simulated medium whose
stop succeeds. -/
def exampleScanManager : ScanManager SimulatedBle :=
  ⟨⟨0, BleOperationStatus.kSucceeded⟩, ScanningCallbacksMap.empty, []⟩

/-- The keys of the map, the registered ids. -/
def ScanningCallbacksMap.keys (m : ScanningCallbacksMap) : List Nat :=
  m.entries.map Prod.fst

/-- One operation on a scan manager, by a client or by the medium: a
`StartScan` that draws `id`, a call of a session's `stop_scan_callback`, a
`NotifyFoundBle`, or the medium reporting an advertisement to a wrapped
callback. -/
inductive ScanOp (μ : Type) where
  | startScan (id : Nat) (scan_request : ScanRequest)
      (device_found_callback : BleDeviceFoundCallback) (cb : ScanningCallback)
  | stopScan (session : ScanSession μ)
  | notifyFoundBle (id : Nat) (pd : PresenceDevice)
  | advertisementFound (callback : WrappedScanningCallback)

/-- The id an operation draws and registers, if it is a `StartScan`. -/
def ScanOp.drawn {μ : Type} : ScanOp μ → Option Nat
  | .startScan id _ _ _ => some id
  | _ => none

/-- The manager after one operation. -/
def ScanOp.apply {μ : Type} (ble : Ble μ) : ScanOp μ → ScanManager μ → ScanManager μ
  | .startScan id scan_request device_found_callback cb, mgr =>
    (ScanManager.StartScan ble mgr id scan_request device_found_callback cb).2
  | .stopScan session, mgr => (ScanManager.stop_scan_callback session mgr).2
  | .notifyFoundBle id pd, mgr => (ScanManager.NotifyFoundBle mgr id pd).2
  | .advertisementFound callback, mgr => ScanManager.advertisement_found_cb callback mgr

/-- The manager after a sequence of operations. -/
def applyOps {μ : Type} (ble : Ble μ) : List (ScanOp μ) → ScanManager μ → ScanManager μ
  | [], mgr => mgr
  | op :: rest, mgr => applyOps ble rest (op.apply ble mgr)

/-- The stop calls that reached the medium, counted in a log. -/
def stopCalls (events : List ScanEvent) : Nat :=
  events.count ScanEvent.StopScanning

/-- The device-found callbacks invoked according to a log, in order. -/
def deviceFoundCalls : List ScanEvent → List (Nat × PresenceDevice)
  | [] => []
  | ScanEvent.DeviceFoundCb cb pd :: rest => (cb, pd) :: deviceFoundCalls rest
  | _ :: rest => deviceFoundCalls rest

/-- A scan manager with no registered callback over a simulated medium whose
stop fails. -/
def exampleFailingScanManager : ScanManager SimulatedBle :=
  ⟨⟨0, BleOperationStatus.kFailed⟩, ScanningCallbacksMap.empty, []⟩

/-! ## LDT encryptor

A shallow embedding of `presence/implementation/ldt.h` and of the buffer
preparation in `presence/implementation/ldt.cc`.  The LDT library behind
`np_ldt.h` is an external collaborator. -/

/-- The type `NpLdtHandle` of the C interface `np_ldt.h`, which is not part of
the sources.  The source copies it, passes it by value and compares it with
`nullptr`: a raw pointer, none standing for null. -/
abbrev NpLdtHandle := Option Nat

/-- The calls on the LDT library that release a handle. -/
inductive LdtEvent where
  | NpLdtClose (handle : Nat)
  deriving DecidableEq, Repr

/-- The class `LdtEncryptor`: its only member is the handle. -/
structure LdtEncryptor where
  ldt_handle_ : NpLdtHandle
  deriving DecidableEq, Repr

namespace LdtEncryptor

/-- Reading a raw pointer through `std::move`: the value read, and the pointer
variable afterwards.  `std::move` is a cast, and initializing or assigning a
pointer from the result copies it: the variable keeps its value. -/
def moveHandle (p : NpLdtHandle) : NpLdtHandle × NpLdtHandle := (p, p)

/-- The move constructor
`LdtEncryptor(LdtEncryptor&& other) : ldt_handle_(std::move(other.ldt_handle_))`:
the constructed object, and `other` afterwards. -/
def moveConstruct (other : LdtEncryptor) : LdtEncryptor × LdtEncryptor :=
  let moved := moveHandle other.ldt_handle_
  (⟨moved.1⟩, { other with ldt_handle_ := moved.2 })

/-- The move assignment `operator=(LdtEncryptor&& other)`, whose body is
`ldt_handle_ = std::move(other.ldt_handle_)`: the assigned object, and `other`
afterwards. -/
def moveAssign (self other : LdtEncryptor) : LdtEncryptor × LdtEncryptor :=
  let moved := moveHandle other.ldt_handle_
  ({ self with ldt_handle_ := moved.1 }, { other with ldt_handle_ := moved.2 })

/-- The destructor `~LdtEncryptor()`: a non-null handle is closed. -/
def destroy (e : LdtEncryptor) (log : List LdtEvent) : List LdtEvent :=
  match e.ldt_handle_ with
  | none => log
  | some handle => log ++ [LdtEvent.NpLdtClose handle]

end LdtEncryptor

/-- The call `memcpy(dst, src, n)` on byte buffers: the first `n` bytes of `dst`
are replaced by the first `n` bytes of `src`. -/
def memcpy (dst src : List Nat) (n : Nat) : List Nat :=
  src.take n ++ dst.drop n

/-- The function template `FromStringView<T>`, for a target `T` whose `bytes`
member has `N` bytes: the buffer is zero-initialized by `.bytes = {0}`, then
`min(sizeof(result.bytes), data.size())` bytes of `data` are copied in. -/
def FromStringView (N : Nat) (data : List Nat) : List Nat :=
  let result := List.replicate N 0
  memcpy result data (min N data.length)

/-- The key seed prepared by `LdtEncryptor::Create`, `seedSize` being
`sizeof(ldt_key_seed.bytes)`. -/
def ldtKeySeed (seedSize : Nat) (key_seed : List Nat) : List Nat :=
  let ldt_key_seed := List.replicate seedSize 0
  memcpy ldt_key_seed key_seed (min seedSize key_seed.length)

/-- The metadata-key HMAC prepared by `LdtEncryptor::Create`, `hmacSize` being
`sizeof(metadata_key_hmac.bytes)`. -/
def metadataKeyHmac (hmacSize : Nat) (known_hmac : List Nat) : List Nat :=
  let metadata_key_hmac := List.replicate hmacSize 0
  memcpy metadata_key_hmac known_hmac (min hmacSize known_hmac.length)

/-- The function `LdtEncryptor::Create`; `NpLdtCreate` is the library call,
taken as a parameter, and the error is `absl::UnavailableError`. -/
def LdtEncryptor.Create (NpLdtCreate : List Nat → List Nat → NpLdtHandle)
    (seedSize hmacSize : Nat) (key_seed known_hmac : List Nat) :
    Except String LdtEncryptor :=
  let handle := NpLdtCreate (ldtKeySeed seedSize key_seed) (metadataKeyHmac hmacSize known_hmac)
  match handle with
  | none => Except.error "Failed to create LDT encryptor"
  | some p => Except.ok ⟨some p⟩

end Presence

end Nearby

/-! # Theorems -/

namespace Nearby

/-! ## The credential payload round-trips -/

theorem getVarint_putVarintFuel (fuel : Nat) : ∀ (n : Nat) (rest : List Nat), n ≤ fuel →
    getVarint (putVarintFuel fuel n ++ rest) = some (n, rest) := by
  induction fuel with
  | zero =>
    intro n rest hn
    have h0 : n = 0 := by omega
    subst h0
    simp [putVarintFuel, getVarint]
  | succ f ih =>
    intro n rest hn
    by_cases hlt : n < 128
    · simp [putVarintFuel, getVarint, hlt]
    · have hle : n / 128 ≤ f := by omega
      have hb : ¬ (n % 128 + 128 < 128) := by omega
      simp only [putVarintFuel, hlt, if_false, List.cons_append, getVarint, hb, ih _ rest hle]
      have hsum : n % 128 + 128 - 128 + 128 * (n / 128) = n := by omega
      rw [hsum]

theorem getVarint_putVarint (n : Nat) (rest : List Nat) :
    getVarint (putVarint n ++ rest) = some (n, rest) :=
  getVarint_putVarintFuel n n rest (Nat.le_refl n)

theorem bytesString_stringBytes (s : String) : bytesString (stringBytes s) = s := by
  cases s with
  | mk data =>
    simp only [bytesString, stringBytes, List.map_map]
    congr 1
    induction data with
    | nil => rfl
    | cons c cs ih => simp [ih]

theorem stringBytes_length (s : String) : (stringBytes s).length = s.length := by
  cases s with
  | mk data => simp [stringBytes, String.length]

theorem parseFields_putField (fuel number : Nat) (s : String) (rest : List Nat)
    (c : BluetoothCredentials) :
    parseFields (fuel + 1) (putField number (some s) ++ rest) c
      = parseFields fuel rest (setField c number s) := by
  have hlen : ¬ ((stringBytes s ++ rest).length < s.length) := by
    simp [stringBytes_length]
  have htake : (stringBytes s ++ rest).take s.length = stringBytes s := by
    rw [← stringBytes_length s]
    exact List.take_left _ _
  have hdrop : (stringBytes s ++ rest).drop s.length = rest := by
    rw [← stringBytes_length s]
    exact List.drop_left _ _
  have hshape : putField number (some s) ++ rest
      = number :: (putVarint s.length ++ (stringBytes s ++ rest)) := by
    simp [putField]
  rw [hshape]
  simp only [parseFields, getVarint_putVarint, hlen, if_false, htake, hdrop,
    bytesString_stringBytes]

theorem putField_length (number : Nat) (s : String) : 1 ≤ (putField number (some s)).length := by
  simp [putField]

theorem parseFields_two (fuel : Nat) (a b : String) (c : BluetoothCredentials)
    (hfuel : 2 ≤ fuel) :
    parseFields fuel (putField 1 (some a) ++ putField 2 (some b)) c
      = some (setField (setField c 1 a) 2 b) := by
  obtain ⟨k, rfl⟩ : ∃ k, fuel = k + 1 + 1 := ⟨fuel - 2, by omega⟩
  rw [parseFields_putField]
  have h2 : putField 2 (some b) = putField 2 (some b) ++ [] := by simp
  rw [h2, parseFields_putField]
  cases k <;> rfl

theorem Parse_ForBwuBluetoothPathAvailable (service_id mac_address : String) :
    ParseUpgradePathInfo (ForBwuBluetoothPathAvailable service_id mac_address)
      = some ⟨Medium.BLUETOOTH, some ⟨some service_id, some mac_address⟩⟩ := by
  have hfuel : 2 ≤ (putField 1 (some service_id) ++ putField 2 (some mac_address)).length := by
    have h1 := putField_length 1 service_id
    have h2 := putField_length 2 mac_address
    simp only [List.length_append]
    omega
  simp only [ForBwuBluetoothPathAvailable, SerializeUpgradePathInfo, ParseUpgradePathInfo,
    Medium.tag, Medium.ofTag]
  simp only [parseFields_two _ _ _ _ hfuel]
  rfl

theorem ForBwuBluetoothPathAvailable_ne_nil (service_id mac_address : String) :
    ForBwuBluetoothPathAvailable service_id mac_address ≠ [] := by
  simp [ForBwuBluetoothPathAvailable, SerializeUpgradePathInfo]

theorem serviceId_infix_payload (service_id mac_address : String) :
    stringBytes service_id <:+: ForBwuBluetoothPathAvailable service_id mac_address := by
  refine ⟨Medium.BLUETOOTH.tag :: 1 :: putVarint service_id.length,
    putField 2 (some mac_address), ?_⟩
  simp [ForBwuBluetoothPathAvailable, SerializeUpgradePathInfo, putField]

theorem macAddress_infix_payload (service_id mac_address : String) :
    stringBytes mac_address <:+: ForBwuBluetoothPathAvailable service_id mac_address := by
  refine ⟨Medium.BLUETOOTH.tag :: (putField 1 (some service_id) ++
    2 :: putVarint mac_address.length), [], ?_⟩
  simp [ForBwuBluetoothPathAvailable, SerializeUpgradePathInfo, putField]

namespace BluetoothBwuHandler

variable {σ : Type}

/-! ## Revert -/

theorem RevertLoop_events (bt : BluetoothClassic σ) :
    ∀ (ids : List String) (h : BluetoothBwuHandler σ),
      (RevertLoop bt ids h).events = h.events ++ ids.map Event.StopAcceptingConnections := by
  intro ids
  induction ids with
  | nil => intro h; simp [RevertLoop]
  | cons id rest ih =>
    intro h
    simp [RevertLoop, ih, callStopAcceptingConnections]

theorem RevertLoop_active (bt : BluetoothClassic σ) :
    ∀ (ids : List String) (h : BluetoothBwuHandler σ),
      (RevertLoop bt ids h).active_service_ids_ = h.active_service_ids_ := by
  intro ids
  induction ids with
  | nil => intro h; rfl
  | cons id rest ih =>
    intro h
    simp [RevertLoop, ih, callStopAcceptingConnections]

theorem count_stop_map (s : String) :
    ∀ (ids : List String),
      (ids.map Event.StopAcceptingConnections).count (Event.StopAcceptingConnections s)
        = ids.count s := by
  intro ids
  induction ids with
  | nil => rfl
  | cons id rest ih =>
    by_cases hid : id = s
    · subst hid
      simp [ih]
    · have hne : Event.StopAcceptingConnections id ≠ Event.StopAcceptingConnections s := by
        intro heq
        exact hid (Event.StopAcceptingConnections.inj heq)
      simp only [List.map_cons]
      rw [List.count_cons_of_ne (Ne.symm hne), List.count_cons_of_ne (Ne.symm hid), ih]

/-- C3: after `Revert()` the active-service-id set is empty, so every service id
`s` is absent from it, for every handler state and every adapter behaviour
(whatever the stop calls return or do to the adapter). -/
theorem C3_revert_clears_state (bt : BluetoothClassic σ) (h : BluetoothBwuHandler σ)
    (s : String) :
    (Revert bt h).active_service_ids_.contains s = false ∧
      s ∉ (Revert bt h).active_service_ids_.elems ∧
      (Revert bt h).active_service_ids_.elems = [] ∧
      (Revert bt h).active_service_ids_.size = 0 := by
  simp [Revert, ServiceIdSet.clear, ServiceIdSet.contains, ServiceIdSet.size]

/-- C4: `Revert` is idempotent.  A second `Revert()` directly after a first one
returns the state unchanged (log and adapter state included, so no adapter call
was made), and so does `Revert()` on any state whose active-service-id set is
empty; the set is empty afterwards. -/
theorem C4_revert_idempotent (bt : BluetoothClassic σ) (h : BluetoothBwuHandler σ) :
    Revert bt (Revert bt h) = Revert bt h ∧
      (Revert bt (Revert bt h)).events = (Revert bt h).events ∧
      (Revert bt (Revert bt h)).active_service_ids_.elems = [] ∧
      (h.active_service_ids_.elems = [] →
        Revert bt h = h ∧ (Revert bt h).events = h.events ∧
          (Revert bt h).active_service_ids_.elems = []) := by
  have hempty : ∀ g : BluetoothBwuHandler σ, g.active_service_ids_.elems = [] →
      Revert bt g = g := by
    intro g hg
    obtain ⟨m, ⟨elems, nodup⟩, ev⟩ := g
    simp only at hg
    subst hg
    rfl
  have h1 : Revert bt (Revert bt h) = Revert bt h := hempty (Revert bt h) rfl
  refine ⟨h1, by rw [h1], rfl, ?_⟩
  intro hg
  have h2 := hempty h hg
  exact ⟨h2, by rw [h2], rfl⟩

/-- C5: `Revert()` issues exactly the calls `StopAcceptingConnections(id)`, one
for each id of the active-service-id set in iteration order, and nothing else:
the number of stop calls logged for an id grows by one if the id was in the set
and by zero otherwise.  The result of a stop call is discarded, so a failing
stop neither ends the loop nor reaches the caller. -/
theorem C5_revert_stops_each_id_once (bt : BluetoothClassic σ) (h : BluetoothBwuHandler σ) :
    (Revert bt h).events
        = h.events ++ h.active_service_ids_.elems.map Event.StopAcceptingConnections ∧
      ∀ s : String,
        (Revert bt h).events.count (Event.StopAcceptingConnections s)
          = h.events.count (Event.StopAcceptingConnections s)
            + if h.active_service_ids_.contains s then 1 else 0 := by
  have hev : (Revert bt h).events
      = h.events ++ h.active_service_ids_.elems.map Event.StopAcceptingConnections := by
    simp [Revert, RevertLoop_events]
  refine ⟨hev, ?_⟩
  intro s
  rw [hev, List.count_append, count_stop_map]
  by_cases hs : s ∈ h.active_service_ids_.elems
  · simp [ServiceIdSet.contains, hs, List.count_eq_one_of_mem h.active_service_ids_.nodup hs]
  · simp [ServiceIdSet.contains, hs, List.count_eq_zero_of_not_mem hs]

/-! ## Initiator side -/

theorem Initialize_of_no_address (wrap : String → String) (bt : BluetoothClassic σ)
    (h : BluetoothBwuHandler σ) (client : ClientProxy) (service_id endpoint_id : String)
    (hmac : localAddress bt h = "") :
    InitializeUpgradedMediumForEndpoint wrap bt h client service_id endpoint_id
      = ([], (callGetMacAddress bt h).2) := by
  have hemp : (callGetMacAddress bt h).1.isEmpty = true := by
    rw [String.isEmpty_iff]
    exact hmac
  simp only [InitializeUpgradedMediumForEndpoint, hemp, if_true]

theorem Initialize_of_start_failure (wrap : String → String) (bt : BluetoothClassic σ)
    (h : BluetoothBwuHandler σ) (client : ClientProxy) (service_id endpoint_id : String)
    (hmac : localAddress bt h ≠ "")
    (hacc : alreadyAccepting bt h (wrap service_id) = false)
    (hstart : listenerStarts bt h (wrap service_id) ⟨client, service_id⟩ = false) :
    InitializeUpgradedMediumForEndpoint wrap bt h client service_id endpoint_id
      = ([], (callStartAcceptingConnections bt
                (callIsAcceptingConnections bt (callGetMacAddress bt h).2 (wrap service_id)).2
                (wrap service_id) ⟨client, service_id⟩).2) := by
  have hemp : (callGetMacAddress bt h).1.isEmpty = false := by
    rw [Bool.eq_false_iff, Ne, String.isEmpty_iff]
    exact hmac
  have hacc2 : (callIsAcceptingConnections bt (callGetMacAddress bt h).2
      (wrap service_id)).1 = false := hacc
  have hstart2 : (callStartAcceptingConnections bt
      (callIsAcceptingConnections bt (callGetMacAddress bt h).2 (wrap service_id)).2
      (wrap service_id) ⟨client, service_id⟩).1 = false := hstart
  simp [InitializeUpgradedMediumForEndpoint, hemp, hacc2, hstart2]

theorem Initialize_of_success (wrap : String → String) (bt : BluetoothClassic σ)
    (h : BluetoothBwuHandler σ) (client : ClientProxy) (service_id endpoint_id : String)
    (hmac : localAddress bt h ≠ "")
    (hok : alreadyAccepting bt h (wrap service_id) = true ∨
      listenerStarts bt h (wrap service_id) ⟨client, service_id⟩ = true) :
    (InitializeUpgradedMediumForEndpoint wrap bt h client service_id endpoint_id).1
        = ForBwuBluetoothPathAvailable (wrap service_id) (localAddress bt h) ∧
      (InitializeUpgradedMediumForEndpoint wrap bt h client service_id
          endpoint_id).2.active_service_ids_
        = h.active_service_ids_.emplace (wrap service_id) := by
  have hemp : (callGetMacAddress bt h).1.isEmpty = false := by
    rw [Bool.eq_false_iff, Ne, String.isEmpty_iff]
    exact hmac
  cases hacc : alreadyAccepting bt h (wrap service_id) with
  | true =>
    have hacc2 : (callIsAcceptingConnections bt (callGetMacAddress bt h).2
        (wrap service_id)).1 = true := hacc
    simp [InitializeUpgradedMediumForEndpoint, cacheAndReply, hemp, hacc2]
    exact ⟨rfl, rfl⟩
  | false =>
    have hstart : listenerStarts bt h (wrap service_id) ⟨client, service_id⟩ = true := by
      rcases hok with h1 | h1
      · rw [hacc] at h1
        exact absurd h1 (by decide)
      · exact h1
    have hacc2 : (callIsAcceptingConnections bt (callGetMacAddress bt h).2
        (wrap service_id)).1 = false := hacc
    have hstart2 : (callStartAcceptingConnections bt
        (callIsAcceptingConnections bt (callGetMacAddress bt h).2 (wrap service_id)).2
        (wrap service_id) ⟨client, service_id⟩).1 = true := hstart
    simp [InitializeUpgradedMediumForEndpoint, cacheAndReply, hemp, hacc2, hstart2]
    exact ⟨rfl, rfl⟩

theorem mem_emplaceList (l : List String) (id x : String) :
    x ∈ emplaceList l id ↔ x = id ∨ x ∈ l := by
  unfold emplaceList
  split
  · rename_i hin
    constructor
    · intro hx
      exact Or.inr hx
    · intro hx
      rcases hx with rfl | hx
      · exact hin
      · exact hx
  · simp [or_comm]

/-- C1: `InitializeUpgradedMediumForEndpoint` returns the empty byte array if and
only if the adapter's local address is empty, or the adapter is not yet
accepting on the derived upgrade service id and `StartAcceptingConnections` on
it returns false.  In every other case the bytes are non-empty, decode to the
Bluetooth credential holding the derived upgrade service id and the local
address, and contain the bytes of both. -/
theorem C1_initialize_empty_iff (wrap : String → String) (bt : BluetoothClassic σ)
    (h : BluetoothBwuHandler σ) (client : ClientProxy) (service_id endpoint_id : String) :
    ((InitializeUpgradedMediumForEndpoint wrap bt h client service_id endpoint_id).1 = [] ↔
        (localAddress bt h = "" ∨
          (alreadyAccepting bt h (wrap service_id) = false ∧
            listenerStarts bt h (wrap service_id) ⟨client, service_id⟩ = false))) ∧
      ((InitializeUpgradedMediumForEndpoint wrap bt h client service_id endpoint_id).1 = [] ∨
        ((InitializeUpgradedMediumForEndpoint wrap bt h client service_id endpoint_id).1 ≠ [] ∧
          ParseUpgradePathInfo
              (InitializeUpgradedMediumForEndpoint wrap bt h client service_id endpoint_id).1
            = some ⟨Medium.BLUETOOTH,
                some ⟨some (wrap service_id), some (localAddress bt h)⟩⟩ ∧
          stringBytes (wrap service_id) <:+:
            (InitializeUpgradedMediumForEndpoint wrap bt h client service_id endpoint_id).1 ∧
          stringBytes (localAddress bt h) <:+:
            (InitializeUpgradedMediumForEndpoint wrap bt h client service_id endpoint_id).1)) := by
  by_cases hmac : localAddress bt h = ""
  · have hr := Initialize_of_no_address wrap bt h client service_id endpoint_id hmac
    rw [hr]
    exact ⟨⟨fun _ => Or.inl hmac, fun _ => rfl⟩, Or.inl rfl⟩
  · by_cases hok : alreadyAccepting bt h (wrap service_id) = true ∨
        listenerStarts bt h (wrap service_id) ⟨client, service_id⟩ = true
    · have hr := (Initialize_of_success wrap bt h client service_id endpoint_id hmac hok).1
      rw [hr]
      have hne := ForBwuBluetoothPathAvailable_ne_nil (wrap service_id) (localAddress bt h)
      refine ⟨⟨fun hnil => absurd hnil hne, ?_⟩, Or.inr ⟨hne, ?_, ?_, ?_⟩⟩
      · intro hc
        rcases hc with hc | ⟨hc1, hc2⟩
        · exact absurd hc hmac
        · rcases hok with h1 | h1
          · rw [hc1] at h1
            exact absurd h1 (by decide)
          · rw [hc2] at h1
            exact absurd h1 (by decide)
      · exact Parse_ForBwuBluetoothPathAvailable _ _
      · exact serviceId_infix_payload _ _
      · exact macAddress_infix_payload _ _
    · have hacc : alreadyAccepting bt h (wrap service_id) = false := by
        cases hv : alreadyAccepting bt h (wrap service_id) with
        | true => exact absurd (Or.inl hv) hok
        | false => rfl
      have hstart : listenerStarts bt h (wrap service_id) ⟨client, service_id⟩ = false := by
        cases hv : listenerStarts bt h (wrap service_id) ⟨client, service_id⟩ with
        | true => exact absurd (Or.inr hv) hok
        | false => rfl
      have hr := Initialize_of_start_failure wrap bt h client service_id endpoint_id
        hmac hacc hstart
      rw [hr]
      exact ⟨⟨fun _ => Or.inr ⟨hacc, hstart⟩, fun _ => rfl⟩, Or.inl rfl⟩

/-- C2: when the local address is non-empty and the adapter either is already
accepting on the derived id or starts the listener successfully,
`InitializeUpgradedMediumForEndpoint` leaves the active-service-id set equal to
the old set with the derived id added, and returns exactly the credential
payload built from the derived id and the local address, which decodes to that
pair. -/
theorem C2_initialize_success (wrap : String → String) (bt : BluetoothClassic σ)
    (h : BluetoothBwuHandler σ) (client : ClientProxy) (service_id endpoint_id : String)
    (hmac : localAddress bt h ≠ "")
    (hok : alreadyAccepting bt h (wrap service_id) = true ∨
      listenerStarts bt h (wrap service_id) ⟨client, service_id⟩ = true) :
    (InitializeUpgradedMediumForEndpoint wrap bt h client service_id
          endpoint_id).2.active_service_ids_
        = h.active_service_ids_.emplace (wrap service_id) ∧
      (∀ x : String,
        x ∈ (InitializeUpgradedMediumForEndpoint wrap bt h client service_id
              endpoint_id).2.active_service_ids_.elems
          ↔ x = wrap service_id ∨ x ∈ h.active_service_ids_.elems) ∧
      (InitializeUpgradedMediumForEndpoint wrap bt h client service_id
          endpoint_id).2.active_service_ids_.contains (wrap service_id) = true ∧
      (InitializeUpgradedMediumForEndpoint wrap bt h client service_id endpoint_id).1
        = ForBwuBluetoothPathAvailable (wrap service_id) (localAddress bt h) ∧
      ParseUpgradePathInfo
          (InitializeUpgradedMediumForEndpoint wrap bt h client service_id endpoint_id).1
        = some ⟨Medium.BLUETOOTH, some ⟨some (wrap service_id), some (localAddress bt h)⟩⟩ := by
  obtain ⟨hbytes, hids⟩ :=
    Initialize_of_success wrap bt h client service_id endpoint_id hmac hok
  rw [hbytes, hids]
  refine ⟨rfl, ?_, ?_, rfl, Parse_ForBwuBluetoothPathAvailable _ _⟩
  · intro x
    exact mem_emplaceList _ _ _
  · simp [ServiceIdSet.contains, ServiceIdSet.emplace, mem_emplaceList]

/-- C2, at the example scenario: service id `svc1`, local address
`AA:BB:CC:DD:EE:FF`, a listener that starts. -/
theorem C2_initialize_success_witness :
    localAddress simulatedBluetooth exampleInitiator ≠ "" ∧
      listenerStarts simulatedBluetooth exampleInitiator (wrapWithSuffix "svc1") ⟨7, "svc1"⟩
        = true ∧
      (InitializeUpgradedMediumForEndpoint wrapWithSuffix simulatedBluetooth exampleInitiator
          7 "svc1" "ep1").2.active_service_ids_.contains (wrapWithSuffix "svc1") = true ∧
      ParseUpgradePathInfo
          (InitializeUpgradedMediumForEndpoint wrapWithSuffix simulatedBluetooth exampleInitiator
            7 "svc1" "ep1").1
        = some ⟨Medium.BLUETOOTH, some ⟨some (wrapWithSuffix "svc1"),
            some "AA:BB:CC:DD:EE:FF"⟩⟩ :=
  ⟨by decide, rfl,
   (C2_initialize_success wrapWithSuffix simulatedBluetooth exampleInitiator 7 "svc1" "ep1"
      (by decide) (Or.inr rfl)).2.2.1,
   (C2_initialize_success wrapWithSuffix simulatedBluetooth exampleInitiator 7 "svc1" "ep1"
      (by decide) (Or.inr rfl)).2.2.2.2⟩

/-- C4, at the example scenario: after `Revert()` on the state with the two
active ids derived from `svc1` and `svc2`, over an adapter whose stop calls
fail, the set is empty and a second `Revert()` changes nothing: the log still
holds the two stop calls of the first one. -/
theorem C4_revert_idempotent_witness :
    (Revert simulatedBluetooth exampleAccepting).active_service_ids_.elems = [] ∧
      Revert simulatedBluetooth (Revert simulatedBluetooth exampleAccepting)
        = Revert simulatedBluetooth exampleAccepting ∧
      (Revert simulatedBluetooth (Revert simulatedBluetooth exampleAccepting)).events
        = [Event.StopAcceptingConnections "svc1_UPGRADE",
           Event.StopAcceptingConnections "svc2_UPGRADE"] :=
  ⟨rfl,
   ((C4_revert_idempotent simulatedBluetooth
      (Revert simulatedBluetooth exampleAccepting)).2.2.2 rfl).1,
   ((C4_revert_idempotent simulatedBluetooth
      (Revert simulatedBluetooth exampleAccepting)).2.2.2 rfl).2.1⟩

/-! ## Target side -/

theorem Create_of_missing (bt : BluetoothClassic σ) (h : BluetoothBwuHandler σ)
    (client : ClientProxy) (service_id endpoint_id : String) (info : UpgradePathInfo)
    (hmissing : info.bluetooth_credentials.has_service_name = false ∨
      info.bluetooth_credentials.has_mac_address = false) :
    CreateUpgradedEndpointChannel bt h client service_id endpoint_id info = (none, h) := by
  rcases hmissing with hm | hm <;> simp [CreateUpgradedEndpointChannel, hm]

theorem Create_of_unresolved (bt : BluetoothClassic σ) (h : BluetoothBwuHandler σ)
    (client : ClientProxy) (service_id endpoint_id : String) (info : UpgradePathInfo)
    (hname : info.bluetooth_credentials.has_service_name = true)
    (hmac : info.bluetooth_credentials.has_mac_address = true)
    (hdev : (resolvedDevice bt h info.bluetooth_credentials.mac_address).IsValid = false) :
    CreateUpgradedEndpointChannel bt h client service_id endpoint_id info
      = (none, (callGetRemoteDevice bt h info.bluetooth_credentials.mac_address).2) := by
  have hdev2 : (callGetRemoteDevice bt h info.bluetooth_credentials.mac_address).1.IsValid
      = false := hdev
  simp [CreateUpgradedEndpointChannel, hname, hmac, hdev2]

theorem Create_of_connect_failure (bt : BluetoothClassic σ) (h : BluetoothBwuHandler σ)
    (client : ClientProxy) (service_id endpoint_id : String) (info : UpgradePathInfo)
    (hname : info.bluetooth_credentials.has_service_name = true)
    (hmac : info.bluetooth_credentials.has_mac_address = true)
    (hdev : (resolvedDevice bt h info.bluetooth_credentials.mac_address).IsValid = true)
    (hsock : (connectedSocket bt h info.bluetooth_credentials.mac_address
      info.bluetooth_credentials.service_name).IsValid = false) :
    CreateUpgradedEndpointChannel bt h client service_id endpoint_id info
      = (none, (callConnect bt
          (callGetRemoteDevice bt h info.bluetooth_credentials.mac_address).2
          (resolvedDevice bt h info.bluetooth_credentials.mac_address)
          info.bluetooth_credentials.service_name).2) := by
  have hdev2 : (callGetRemoteDevice bt h info.bluetooth_credentials.mac_address).1.IsValid
      = true := hdev
  have hsock2 : (callConnect bt
      (callGetRemoteDevice bt h info.bluetooth_credentials.mac_address).2
      (callGetRemoteDevice bt h info.bluetooth_credentials.mac_address).1
      info.bluetooth_credentials.service_name).1.IsValid = false := hsock
  simp [CreateUpgradedEndpointChannel, hname, hmac, hdev2, hsock2]
  rfl

theorem Create_of_success (bt : BluetoothClassic σ) (h : BluetoothBwuHandler σ)
    (client : ClientProxy) (service_id endpoint_id : String) (info : UpgradePathInfo)
    (hname : info.bluetooth_credentials.has_service_name = true)
    (hmac : info.bluetooth_credentials.has_mac_address = true)
    (hdev : (resolvedDevice bt h info.bluetooth_credentials.mac_address).IsValid = true)
    (hsock : (connectedSocket bt h info.bluetooth_credentials.mac_address
      info.bluetooth_credentials.service_name).IsValid = true) :
    (CreateUpgradedEndpointChannel bt h client service_id endpoint_id info).1
      = some ⟨info.bluetooth_credentials.service_name,
          connectedSocket bt h info.bluetooth_credentials.mac_address
            info.bluetooth_credentials.service_name⟩ := by
  have hdev2 : (callGetRemoteDevice bt h info.bluetooth_credentials.mac_address).1.IsValid
      = true := hdev
  have hsock2 : (callConnect bt
      (callGetRemoteDevice bt h info.bluetooth_credentials.mac_address).2
      (callGetRemoteDevice bt h info.bluetooth_credentials.mac_address).1
      info.bluetooth_credentials.service_name).1.IsValid = true := hsock
  simp [CreateUpgradedEndpointChannel, hname, hmac, hdev2, hsock2, makeEndpointChannel]
  rfl

/-- C6: for every credential in which the service name or the MAC address is
absent, `CreateUpgradedEndpointChannel` returns none and leaves the handler, the
adapter state and the log as they were: no adapter call is made, neither
`GetRemoteDevice` nor `Connect`. -/
theorem C6_missing_field_returns_none (bt : BluetoothClassic σ) (h : BluetoothBwuHandler σ)
    (client : ClientProxy) (service_id endpoint_id : String) (info : UpgradePathInfo)
    (hmissing : info.bluetooth_credentials.has_service_name = false ∨
      info.bluetooth_credentials.has_mac_address = false) :
    (CreateUpgradedEndpointChannel bt h client service_id endpoint_id info).1 = none ∧
      (CreateUpgradedEndpointChannel bt h client service_id endpoint_id info).2 = h ∧
      (CreateUpgradedEndpointChannel bt h client service_id endpoint_id info).2.events
        = h.events := by
  rw [Create_of_missing bt h client service_id endpoint_id info hmissing]
  exact ⟨rfl, rfl, rfl⟩

/-- C6, at three credentials: the service name absent, the MAC address absent,
both absent; the adapter of `exampleTarget` would resolve and connect. -/
theorem C6_missing_field_returns_none_witness :
    (CreateUpgradedEndpointChannel simulatedBluetooth exampleTarget 7 "svc1" "ep1"
        ⟨Medium.BLUETOOTH, some ⟨none, some "AA:BB:CC:DD:EE:FF"⟩⟩).1 = none ∧
      (CreateUpgradedEndpointChannel simulatedBluetooth exampleTarget 7 "svc1" "ep1"
        ⟨Medium.BLUETOOTH, some ⟨some "svc1_UPGRADE", none⟩⟩).2.events = [] ∧
      (CreateUpgradedEndpointChannel simulatedBluetooth exampleTarget 7 "svc1" "ep1"
        ⟨Medium.BLUETOOTH, none⟩).1 = none :=
  ⟨(C6_missing_field_returns_none simulatedBluetooth exampleTarget 7 "svc1" "ep1"
      ⟨Medium.BLUETOOTH, some ⟨none, some "AA:BB:CC:DD:EE:FF"⟩⟩ (Or.inl rfl)).1,
   (C6_missing_field_returns_none simulatedBluetooth exampleTarget 7 "svc1" "ep1"
      ⟨Medium.BLUETOOTH, some ⟨some "svc1_UPGRADE", none⟩⟩ (Or.inr rfl)).2.2,
   (C6_missing_field_returns_none simulatedBluetooth exampleTarget 7 "svc1" "ep1"
      ⟨Medium.BLUETOOTH, none⟩ (Or.inl rfl)).1⟩

/-- C7, refuted as stated: it is not the case that for every adapter behaviour
the credential with service name `""` and MAC address `AA:BB:CC:DD:EE:FF`
yields none.  Over the adapter of `exampleTarget`, which resolves the device and
connects, the call returns a channel. -/
theorem C7_empty_service_name_counterexample :
    ¬ (∀ (bt : BluetoothClassic SimulatedMedium) (h : BluetoothBwuHandler SimulatedMedium),
        (CreateUpgradedEndpointChannel bt h 7 "svc1" "ep1"
          ⟨Medium.BLUETOOTH, some ⟨some "", some "AA:BB:CC:DD:EE:FF"⟩⟩).1 = none) := by
  intro hall
  have hnone := hall simulatedBluetooth exampleTarget
  have hsome : (CreateUpgradedEndpointChannel simulatedBluetooth exampleTarget 7 "svc1" "ep1"
      ⟨Medium.BLUETOOTH, some ⟨some "", some "AA:BB:CC:DD:EE:FF"⟩⟩).1
        = some ⟨"", ⟨some 2⟩⟩ := rfl
  rw [hsome] at hnone
  exact Option.noConfusion hnone

/-- C7, amended: a credential whose service name is absent yields none without
any adapter call.  A credential whose service name is set to the empty string
(MAC address present) passes the presence check: the result is none if and only
if the adapter fails to resolve the device or `Connect`, called with the empty
service name, yields an invalid socket; otherwise the result is the channel
named `""` around the connected socket. -/
theorem C7_empty_service_name_amended (bt : BluetoothClassic σ) (h : BluetoothBwuHandler σ)
    (client : ClientProxy) (service_id endpoint_id : String) (medium : Medium)
    (mac_address : String) (mac_field : Option String) :
    CreateUpgradedEndpointChannel bt h client service_id endpoint_id
        ⟨medium, some ⟨none, mac_field⟩⟩ = (none, h) ∧
      ((CreateUpgradedEndpointChannel bt h client service_id endpoint_id
          ⟨medium, some ⟨some "", some mac_address⟩⟩).1 = none ↔
        ((resolvedDevice bt h mac_address).IsValid = false ∨
          (connectedSocket bt h mac_address "").IsValid = false)) ∧
      ((CreateUpgradedEndpointChannel bt h client service_id endpoint_id
          ⟨medium, some ⟨some "", some mac_address⟩⟩).1 = none ∨
        (CreateUpgradedEndpointChannel bt h client service_id endpoint_id
          ⟨medium, some ⟨some "", some mac_address⟩⟩).1
            = some ⟨"", connectedSocket bt h mac_address ""⟩) := by
  refine ⟨Create_of_missing bt h client service_id endpoint_id _ (Or.inl rfl), ?_⟩
  cases hdev : (resolvedDevice bt h mac_address).IsValid with
  | false =>
    have hr := Create_of_unresolved bt h client service_id endpoint_id
      ⟨medium, some ⟨some "", some mac_address⟩⟩ rfl rfl hdev
    rw [hr]
    exact ⟨⟨fun _ => Or.inl rfl, fun _ => rfl⟩, Or.inl rfl⟩
  | true =>
    cases hsock : (connectedSocket bt h mac_address "").IsValid with
    | false =>
      have hr := Create_of_connect_failure bt h client service_id endpoint_id
        ⟨medium, some ⟨some "", some mac_address⟩⟩ rfl rfl hdev hsock
      rw [hr]
      exact ⟨⟨fun _ => Or.inr rfl, fun _ => rfl⟩, Or.inl rfl⟩
    | true =>
      have hr := Create_of_success bt h client service_id endpoint_id
        ⟨medium, some ⟨some "", some mac_address⟩⟩ rfl rfl hdev hsock
      rw [hr]
      refine ⟨⟨fun hc => Option.noConfusion hc, ?_⟩, Or.inr rfl⟩
      intro hc
      rcases hc with hc | hc <;> exact absurd hc (by decide)

/-- C8: for every credential with both fields present, if the device the
adapter resolves for the credential's MAC address is invalid,
`CreateUpgradedEndpointChannel` returns none and the only call it has made is
`GetRemoteDevice` for that address: `Connect` is never called (a `Connect` in
the log afterwards was in the log before). -/
theorem C8_unresolved_device_returns_none (bt : BluetoothClassic σ)
    (h : BluetoothBwuHandler σ) (client : ClientProxy) (service_id endpoint_id : String)
    (info : UpgradePathInfo)
    (hname : info.bluetooth_credentials.has_service_name = true)
    (hmac : info.bluetooth_credentials.has_mac_address = true)
    (hdev : (resolvedDevice bt h info.bluetooth_credentials.mac_address).IsValid = false) :
    (CreateUpgradedEndpointChannel bt h client service_id endpoint_id info).1 = none ∧
      (CreateUpgradedEndpointChannel bt h client service_id endpoint_id info).2.events
        = h.events ++ [Event.GetRemoteDevice info.bluetooth_credentials.mac_address] ∧
      ∀ (device : BluetoothDevice) (name : String),
        Event.Connect device name ∈
            (CreateUpgradedEndpointChannel bt h client service_id endpoint_id info).2.events →
          Event.Connect device name ∈ h.events := by
  rw [Create_of_unresolved bt h client service_id endpoint_id info hname hmac hdev]
  refine ⟨rfl, rfl, ?_⟩
  intro device name hc
  simpa [callGetRemoteDevice] using hc

/-- C8, at a well-formed credential over an adapter that resolves no device. -/
theorem C8_unresolved_device_returns_none_witness :
    (resolvedDevice simulatedBluetooth exampleTargetUnresolved "AA:BB:CC:DD:EE:FF").IsValid
        = false ∧
      (CreateUpgradedEndpointChannel simulatedBluetooth exampleTargetUnresolved 7 "svc1" "ep1"
        ⟨Medium.BLUETOOTH, some ⟨some "svc1_UPGRADE", some "AA:BB:CC:DD:EE:FF"⟩⟩).1 = none ∧
      (CreateUpgradedEndpointChannel simulatedBluetooth exampleTargetUnresolved 7 "svc1" "ep1"
        ⟨Medium.BLUETOOTH, some ⟨some "svc1_UPGRADE", some "AA:BB:CC:DD:EE:FF"⟩⟩).2.events
          = [Event.GetRemoteDevice "AA:BB:CC:DD:EE:FF"] :=
  ⟨rfl,
   (C8_unresolved_device_returns_none simulatedBluetooth exampleTargetUnresolved 7 "svc1" "ep1"
      ⟨Medium.BLUETOOTH, some ⟨some "svc1_UPGRADE", some "AA:BB:CC:DD:EE:FF"⟩⟩
      rfl rfl rfl).1,
   (C8_unresolved_device_returns_none simulatedBluetooth exampleTargetUnresolved 7 "svc1" "ep1"
      ⟨Medium.BLUETOOTH, some ⟨some "svc1_UPGRADE", some "AA:BB:CC:DD:EE:FF"⟩⟩
      rfl rfl rfl).2.1⟩

/-- C9: for every credential with both fields present and a device that
resolves, if `Connect` yields an invalid socket then
`CreateUpgradedEndpointChannel` returns none and its whole activity is the two
adapter calls `GetRemoteDevice` and `Connect`: no channel has been
constructed (a channel construction in the log afterwards was in the log
before). -/
theorem C9_invalid_socket_returns_none (bt : BluetoothClassic σ)
    (h : BluetoothBwuHandler σ) (client : ClientProxy) (service_id endpoint_id : String)
    (info : UpgradePathInfo)
    (hname : info.bluetooth_credentials.has_service_name = true)
    (hmac : info.bluetooth_credentials.has_mac_address = true)
    (hdev : (resolvedDevice bt h info.bluetooth_credentials.mac_address).IsValid = true)
    (hsock : (connectedSocket bt h info.bluetooth_credentials.mac_address
      info.bluetooth_credentials.service_name).IsValid = false) :
    (CreateUpgradedEndpointChannel bt h client service_id endpoint_id info).1 = none ∧
      (CreateUpgradedEndpointChannel bt h client service_id endpoint_id info).2.events
        = h.events ++
          [Event.GetRemoteDevice info.bluetooth_credentials.mac_address,
           Event.Connect (resolvedDevice bt h info.bluetooth_credentials.mac_address)
             info.bluetooth_credentials.service_name] ∧
      ∀ (name : String) (socket : BluetoothSocket),
        Event.MakeEndpointChannel name socket ∈
            (CreateUpgradedEndpointChannel bt h client service_id endpoint_id info).2.events →
          Event.MakeEndpointChannel name socket ∈ h.events := by
  rw [Create_of_connect_failure bt h client service_id endpoint_id info hname hmac hdev hsock]
  refine ⟨rfl, ?_, ?_⟩
  · simp [callConnect, callGetRemoteDevice]
  · intro name socket hc
    simpa [callConnect, callGetRemoteDevice] using hc

/-- C9, at a well-formed credential over an adapter that resolves the device
and fails to connect. -/
theorem C9_invalid_socket_returns_none_witness :
    (connectedSocket simulatedBluetooth exampleTargetUnconnected "AA:BB:CC:DD:EE:FF"
        "svc1_UPGRADE").IsValid = false ∧
      (CreateUpgradedEndpointChannel simulatedBluetooth exampleTargetUnconnected 7 "svc1" "ep1"
        ⟨Medium.BLUETOOTH, some ⟨some "svc1_UPGRADE", some "AA:BB:CC:DD:EE:FF"⟩⟩).1 = none ∧
      (CreateUpgradedEndpointChannel simulatedBluetooth exampleTargetUnconnected 7 "svc1" "ep1"
        ⟨Medium.BLUETOOTH, some ⟨some "svc1_UPGRADE", some "AA:BB:CC:DD:EE:FF"⟩⟩).2.events
          = [Event.GetRemoteDevice "AA:BB:CC:DD:EE:FF",
             Event.Connect ⟨some 1⟩ "svc1_UPGRADE"] :=
  ⟨rfl,
   (C9_invalid_socket_returns_none simulatedBluetooth exampleTargetUnconnected 7 "svc1" "ep1"
      ⟨Medium.BLUETOOTH, some ⟨some "svc1_UPGRADE", some "AA:BB:CC:DD:EE:FF"⟩⟩
      rfl rfl rfl rfl).1,
   (C9_invalid_socket_returns_none simulatedBluetooth exampleTargetUnconnected 7 "svc1" "ep1"
      ⟨Medium.BLUETOOTH, some ⟨some "svc1_UPGRADE", some "AA:BB:CC:DD:EE:FF"⟩⟩
      rfl rfl rfl rfl).2.1⟩

/-- C10: `CreateUpgradedEndpointChannel` returns a channel if and only if both
credential fields are present, the device resolved for the credential's MAC
address is valid and the socket returned by `Connect` is valid; the channel
returned is then the one named by the credential's service name around exactly
that socket, and in every other case the result is none. -/
theorem C10_channel_iff_all_checks_pass (bt : BluetoothClassic σ)
    (h : BluetoothBwuHandler σ) (client : ClientProxy) (service_id endpoint_id : String)
    (info : UpgradePathInfo) :
    ((CreateUpgradedEndpointChannel bt h client service_id endpoint_id info).1.isSome = true ↔
        (info.bluetooth_credentials.has_service_name = true ∧
          info.bluetooth_credentials.has_mac_address = true ∧
          (resolvedDevice bt h info.bluetooth_credentials.mac_address).IsValid = true ∧
          (connectedSocket bt h info.bluetooth_credentials.mac_address
            info.bluetooth_credentials.service_name).IsValid = true)) ∧
      ((CreateUpgradedEndpointChannel bt h client service_id endpoint_id info).1 = none ∨
        (CreateUpgradedEndpointChannel bt h client service_id endpoint_id info).1
          = some ⟨info.bluetooth_credentials.service_name,
              connectedSocket bt h info.bluetooth_credentials.mac_address
                info.bluetooth_credentials.service_name⟩) := by
  cases hname : info.bluetooth_credentials.has_service_name with
  | false =>
    rw [Create_of_missing bt h client service_id endpoint_id info (Or.inl hname)]
    simp
  | true =>
    cases hmac : info.bluetooth_credentials.has_mac_address with
    | false =>
      rw [Create_of_missing bt h client service_id endpoint_id info (Or.inr hmac)]
      simp
    | true =>
      cases hdev : (resolvedDevice bt h info.bluetooth_credentials.mac_address).IsValid with
      | false =>
        rw [Create_of_unresolved bt h client service_id endpoint_id info hname hmac hdev]
        simp
      | true =>
        cases hsock : (connectedSocket bt h info.bluetooth_credentials.mac_address
            info.bluetooth_credentials.service_name).IsValid with
        | false =>
          rw [Create_of_connect_failure bt h client service_id endpoint_id info
            hname hmac hdev hsock]
          simp
        | true =>
          rw [Create_of_success bt h client service_id endpoint_id info hname hmac hdev hsock]
          simp

/-! ## Target side: the socket on the failure path -/

theorem CreateWith_makeUniqueChannel (bt : BluetoothClassic σ) (h : BluetoothBwuHandler σ)
    (client : ClientProxy) (service_id endpoint_id : String) (info : UpgradePathInfo) :
    CreateUpgradedEndpointChannelWith makeUniqueChannel bt h client service_id endpoint_id info
      = CreateUpgradedEndpointChannel bt h client service_id endpoint_id info := rfl

/-- C11: in every execution of `CreateUpgradedEndpointChannel` that returns none
after `Connect` returned a valid socket (both fields present, device resolved),
whatever the channel constructor did, the call's activity is `GetRemoteDevice`,
`Connect`, and then `Close` on exactly that socket: the socket is closed before
the call returns and no channel was constructed. -/
theorem C11_socket_closed_on_failure
    (make_unique : String → BluetoothSocket → Option BluetoothEndpointChannel)
    (bt : BluetoothClassic σ) (h : BluetoothBwuHandler σ) (client : ClientProxy)
    (service_id endpoint_id : String) (info : UpgradePathInfo)
    (hname : info.bluetooth_credentials.has_service_name = true)
    (hmac : info.bluetooth_credentials.has_mac_address = true)
    (hdev : (resolvedDevice bt h info.bluetooth_credentials.mac_address).IsValid = true)
    (hsock : (connectedSocket bt h info.bluetooth_credentials.mac_address
      info.bluetooth_credentials.service_name).IsValid = true)
    (hnone : (CreateUpgradedEndpointChannelWith make_unique bt h client service_id
      endpoint_id info).1 = none) :
    (CreateUpgradedEndpointChannelWith make_unique bt h client service_id
        endpoint_id info).2.events
      = h.events ++
        [Event.GetRemoteDevice info.bluetooth_credentials.mac_address,
         Event.Connect (resolvedDevice bt h info.bluetooth_credentials.mac_address)
           info.bluetooth_credentials.service_name,
         Event.SocketClose (connectedSocket bt h info.bluetooth_credentials.mac_address
           info.bluetooth_credentials.service_name)] := by
  have hdev2 : (callGetRemoteDevice bt h info.bluetooth_credentials.mac_address).1.IsValid
      = true := hdev
  have hsock2 : (callConnect bt
      (callGetRemoteDevice bt h info.bluetooth_credentials.mac_address).2
      (callGetRemoteDevice bt h info.bluetooth_credentials.mac_address).1
      info.bluetooth_credentials.service_name).1.IsValid = true := hsock
  cases hmk : make_unique info.bluetooth_credentials.service_name
      (connectedSocket bt h info.bluetooth_credentials.mac_address
        info.bluetooth_credentials.service_name) with
  | none =>
    have hmk2 : make_unique info.bluetooth_credentials.service_name
        (callConnect bt
          (callGetRemoteDevice bt h info.bluetooth_credentials.mac_address).2
          (callGetRemoteDevice bt h info.bluetooth_credentials.mac_address).1
          info.bluetooth_credentials.service_name).1 = none := hmk
    simp [CreateUpgradedEndpointChannelWith, makeEndpointChannelWith, hname, hmac, hdev2,
      hsock2, hmk2]
    simp [closeSocket, callConnect, callGetRemoteDevice, resolvedDevice, connectedSocket]
  | some c =>
    have hmk2 : make_unique info.bluetooth_credentials.service_name
        (callConnect bt
          (callGetRemoteDevice bt h info.bluetooth_credentials.mac_address).2
          (callGetRemoteDevice bt h info.bluetooth_credentials.mac_address).1
          info.bluetooth_credentials.service_name).1 = some c := hmk
    simp [CreateUpgradedEndpointChannelWith, makeEndpointChannelWith, hname, hmac, hdev2,
      hsock2, hmk2] at hnone

/-- C11, at a well-formed credential over an adapter that resolves and connects
with socket `2`, the channel constructor yielding null: the socket `2` is
closed. -/
theorem C11_socket_closed_on_failure_witness :
    (connectedSocket simulatedBluetooth exampleTarget "AA:BB:CC:DD:EE:FF"
        "svc1_UPGRADE").IsValid = true ∧
      (CreateUpgradedEndpointChannelWith makeUniqueNull simulatedBluetooth exampleTarget
        7 "svc1" "ep1"
        ⟨Medium.BLUETOOTH, some ⟨some "svc1_UPGRADE", some "AA:BB:CC:DD:EE:FF"⟩⟩).1 = none ∧
      (CreateUpgradedEndpointChannelWith makeUniqueNull simulatedBluetooth exampleTarget
        7 "svc1" "ep1"
        ⟨Medium.BLUETOOTH, some ⟨some "svc1_UPGRADE", some "AA:BB:CC:DD:EE:FF"⟩⟩).2.events
          = [Event.GetRemoteDevice "AA:BB:CC:DD:EE:FF",
             Event.Connect ⟨some 1⟩ "svc1_UPGRADE",
             Event.SocketClose ⟨some 2⟩] :=
  ⟨rfl, rfl,
   C11_socket_closed_on_failure makeUniqueNull simulatedBluetooth exampleTarget 7 "svc1" "ep1"
      ⟨Medium.BLUETOOTH, some ⟨some "svc1_UPGRADE", some "AA:BB:CC:DD:EE:FF"⟩⟩
      rfl rfl rfl rfl rfl⟩

/-! ## Initiator side: the calls made -/

theorem startCalls_append (a b : List Event) :
    startCalls (a ++ b) = startCalls a ++ startCalls b := by
  induction a with
  | nil => rfl
  | cons e rest ih => cases e <;> simp [startCalls, ih]

theorem sinkInvocations_append (a b : List Event) :
    sinkInvocations (a ++ b) = sinkInvocations a ++ sinkInvocations b := by
  induction a with
  | nil => rfl
  | cons e rest ih => cases e <;> simp [sinkInvocations, ih]

theorem Initialize_events (wrap : String → String) (bt : BluetoothClassic σ)
    (h : BluetoothBwuHandler σ) (client : ClientProxy) (service_id endpoint_id : String) :
    (InitializeUpgradedMediumForEndpoint wrap bt h client service_id endpoint_id).2.events
      = h.events ++
        (if localAddress bt h = "" then [Event.GetMacAddress]
         else if alreadyAccepting bt h (wrap service_id) = true then
           [Event.GetMacAddress, Event.IsAcceptingConnections (wrap service_id)]
         else
           [Event.GetMacAddress, Event.IsAcceptingConnections (wrap service_id),
            Event.StartAcceptingConnections (wrap service_id) ⟨client, service_id⟩]) := by
  by_cases hmac : localAddress bt h = ""
  · rw [Initialize_of_no_address wrap bt h client service_id endpoint_id hmac, if_pos hmac]
    rfl
  · have hemp : (callGetMacAddress bt h).1.isEmpty = false := by
      rw [Bool.eq_false_iff, Ne, String.isEmpty_iff]
      exact hmac
    rw [if_neg hmac]
    cases hacc : alreadyAccepting bt h (wrap service_id) with
    | true =>
      have hacc2 : (callIsAcceptingConnections bt (callGetMacAddress bt h).2
          (wrap service_id)).1 = true := hacc
      simp [InitializeUpgradedMediumForEndpoint, cacheAndReply, hemp, hacc2]
      simp [callIsAcceptingConnections, callGetMacAddress]
    | false =>
      have hacc2 : (callIsAcceptingConnections bt (callGetMacAddress bt h).2
          (wrap service_id)).1 = false := hacc
      cases hstart : (callStartAcceptingConnections bt
          (callIsAcceptingConnections bt (callGetMacAddress bt h).2 (wrap service_id)).2
          (wrap service_id) ⟨client, service_id⟩).1 with
      | true =>
        simp [InitializeUpgradedMediumForEndpoint, cacheAndReply, hemp, hacc2, hstart]
        simp [callStartAcceptingConnections, callIsAcceptingConnections, callGetMacAddress]
      | false =>
        simp [InitializeUpgradedMediumForEndpoint, cacheAndReply, hemp, hacc2, hstart]
        simp [callStartAcceptingConnections, callIsAcceptingConnections, callGetMacAddress]

theorem Initialize_active (wrap : String → String) (bt : BluetoothClassic σ)
    (h : BluetoothBwuHandler σ) (client : ClientProxy) (service_id endpoint_id : String) :
    (InitializeUpgradedMediumForEndpoint wrap bt h client service_id
        endpoint_id).2.active_service_ids_ = h.active_service_ids_ ∨
      (InitializeUpgradedMediumForEndpoint wrap bt h client service_id
        endpoint_id).2.active_service_ids_ = h.active_service_ids_.emplace (wrap service_id) := by
  by_cases hmac : localAddress bt h = ""
  · rw [Initialize_of_no_address wrap bt h client service_id endpoint_id hmac]
    exact Or.inl rfl
  · by_cases hok : alreadyAccepting bt h (wrap service_id) = true ∨
        listenerStarts bt h (wrap service_id) ⟨client, service_id⟩ = true
    · exact Or.inr (Initialize_of_success wrap bt h client service_id endpoint_id hmac hok).2
    · have hacc : alreadyAccepting bt h (wrap service_id) = false := by
        cases hv : alreadyAccepting bt h (wrap service_id) with
        | true => exact absurd (Or.inl hv) hok
        | false => rfl
      have hstart : listenerStarts bt h (wrap service_id) ⟨client, service_id⟩ = false := by
        cases hv : listenerStarts bt h (wrap service_id) ⟨client, service_id⟩ with
        | true => exact absurd (Or.inr hv) hok
        | false => rfl
      rw [Initialize_of_start_failure wrap bt h client service_id endpoint_id hmac hacc hstart]
      exact Or.inl rfl

theorem Initialize_medium_of_start (wrap : String → String) (bt : BluetoothClassic σ)
    (h : BluetoothBwuHandler σ) (client : ClientProxy) (service_id endpoint_id : String)
    (hmac : localAddress bt h ≠ "")
    (hacc : alreadyAccepting bt h (wrap service_id) = false) :
    (InitializeUpgradedMediumForEndpoint wrap bt h client service_id
        endpoint_id).2.bluetooth_medium_
      = (bt.StartAcceptingConnections (wrap service_id) ⟨client, service_id⟩
          (bt.IsAcceptingConnections (wrap service_id)
            (bt.GetMacAddress h.bluetooth_medium_).2).2).2 := by
  have hemp : (callGetMacAddress bt h).1.isEmpty = false := by
    rw [Bool.eq_false_iff, Ne, String.isEmpty_iff]
    exact hmac
  have hacc2 : (callIsAcceptingConnections bt (callGetMacAddress bt h).2
      (wrap service_id)).1 = false := hacc
  cases hstart : (callStartAcceptingConnections bt
      (callIsAcceptingConnections bt (callGetMacAddress bt h).2 (wrap service_id)).2
      (wrap service_id) ⟨client, service_id⟩).1 with
  | true =>
    simp [InitializeUpgradedMediumForEndpoint, cacheAndReply, hemp, hacc2, hstart]
    rfl
  | false =>
    simp [InitializeUpgradedMediumForEndpoint, cacheAndReply, hemp, hacc2, hstart]
    rfl

theorem count_emplaceList_self (l : List String) (id : String) (hl : l.Nodup) :
    (emplaceList l id).count id = 1 := by
  have hmem : id ∈ emplaceList l id := (mem_emplaceList l id id).2 (Or.inl rfl)
  have hnd : (emplaceList l id).Nodup := (ServiceIdSet.emplace ⟨l, hl⟩ id).nodup
  exact List.count_eq_one_of_mem hnd hmem

theorem emplaceList_of_mem (l : List String) (id : String) (hmem : id ∈ l) :
    emplaceList l id = l := by
  simp [emplaceList, hmem]

theorem simulatedBluetooth_acceptsOnceStarted : AcceptsOnceStarted simulatedBluetooth := by
  intro id cb m hstart
  cases hok : m.start_ok with
  | true => simp [simulatedBluetooth, hok]
  | false => simp [simulatedBluetooth, hok] at hstart

/-- C12: over an adapter that reports accepting on an id once a start for it has
succeeded, when the first `InitializeUpgradedMediumForEndpoint` for `s` has an
address, finds the adapter not yet accepting on the derived id and starts the
listener successfully, a second call for `s` issues no
`StartAcceptingConnections`: the two calls together issue exactly one, and the
active-service-id set afterwards holds the derived id exactly once. -/
theorem C12_second_initialize_starts_nothing (wrap : String → String)
    (bt : BluetoothClassic σ) (h : BluetoothBwuHandler σ)
    (client client2 : ClientProxy) (s endpoint_id endpoint_id2 : String)
    (hlaw : AcceptsOnceStarted bt)
    (hmac : localAddress bt h ≠ "")
    (hacc : alreadyAccepting bt h (wrap s) = false)
    (hstart : listenerStarts bt h (wrap s) ⟨client, s⟩ = true) :
    startCalls (InitializeUpgradedMediumForEndpoint wrap bt h client s endpoint_id).2.events
        = startCalls h.events ++ [(wrap s, ⟨client, s⟩)] ∧
      startCalls (InitializeUpgradedMediumForEndpoint wrap bt
          (InitializeUpgradedMediumForEndpoint wrap bt h client s endpoint_id).2
          client2 s endpoint_id2).2.events
        = startCalls
            (InitializeUpgradedMediumForEndpoint wrap bt h client s endpoint_id).2.events ∧
      (startCalls (InitializeUpgradedMediumForEndpoint wrap bt
          (InitializeUpgradedMediumForEndpoint wrap bt h client s endpoint_id).2
          client2 s endpoint_id2).2.events).length
        = (startCalls h.events).length + 1 ∧
      (InitializeUpgradedMediumForEndpoint wrap bt
          (InitializeUpgradedMediumForEndpoint wrap bt h client s endpoint_id).2
          client2 s endpoint_id2).2.active_service_ids_.elems.count (wrap s) = 1 := by
  have hev1 := Initialize_events wrap bt h client s endpoint_id
  rw [if_neg hmac, hacc] at hev1
  simp only [Bool.false_eq_true, if_false] at hev1
  have hmed := Initialize_medium_of_start wrap bt h client s endpoint_id hmac hacc
  have hact1 := (Initialize_of_success wrap bt h client s endpoint_id hmac (Or.inr hstart)).2
  have hacc2 : alreadyAccepting bt
      (InitializeUpgradedMediumForEndpoint wrap bt h client s endpoint_id).2 (wrap s) = true := by
    unfold alreadyAccepting
    rw [hmed]
    exact hlaw (wrap s) ⟨client, s⟩ _ hstart
  have hev2 := Initialize_events wrap bt
    (InitializeUpgradedMediumForEndpoint wrap bt h client s endpoint_id).2 client2 s endpoint_id2
  rw [hacc2] at hev2
  simp only [if_true] at hev2
  have hstarts1 : startCalls
      (InitializeUpgradedMediumForEndpoint wrap bt h client s endpoint_id).2.events
        = startCalls h.events ++ [(wrap s, ⟨client, s⟩)] := by
    rw [hev1, startCalls_append]
    rfl
  have hstarts2 : startCalls (InitializeUpgradedMediumForEndpoint wrap bt
      (InitializeUpgradedMediumForEndpoint wrap bt h client s endpoint_id).2
      client2 s endpoint_id2).2.events
        = startCalls
            (InitializeUpgradedMediumForEndpoint wrap bt h client s endpoint_id).2.events := by
    rw [hev2, startCalls_append]
    split <;> simp [startCalls]
  refine ⟨hstarts1, hstarts2, ?_, ?_⟩
  · rw [hstarts2, hstarts1]
    simp
  · rcases Initialize_active wrap bt
      (InitializeUpgradedMediumForEndpoint wrap bt h client s endpoint_id).2
      client2 s endpoint_id2 with hsame | hadd
    · rw [hsame, hact1]
      exact count_emplaceList_self _ _ h.active_service_ids_.nodup
    · rw [hadd, hact1]
      exact count_emplaceList_self _ _ (h.active_service_ids_.emplace (wrap s)).nodup

/-- C12, at the example scenario: two calls for `svc1` over the simulated
adapter issue one `StartAcceptingConnections`, and the set holds the derived id
once. -/
theorem C12_second_initialize_starts_nothing_witness :
    AcceptsOnceStarted simulatedBluetooth ∧
      listenerStarts simulatedBluetooth exampleInitiator (wrapWithSuffix "svc1") ⟨7, "svc1"⟩
        = true ∧
      (startCalls (InitializeUpgradedMediumForEndpoint wrapWithSuffix simulatedBluetooth
          (InitializeUpgradedMediumForEndpoint wrapWithSuffix simulatedBluetooth
            exampleInitiator 7 "svc1" "ep1").2
          7 "svc1" "ep1").2.events).length = 1 ∧
      (InitializeUpgradedMediumForEndpoint wrapWithSuffix simulatedBluetooth
          (InitializeUpgradedMediumForEndpoint wrapWithSuffix simulatedBluetooth
            exampleInitiator 7 "svc1" "ep1").2
          7 "svc1" "ep1").2.active_service_ids_.elems.count (wrapWithSuffix "svc1") = 1 :=
  ⟨simulatedBluetooth_acceptsOnceStarted, rfl,
   (C12_second_initialize_starts_nothing wrapWithSuffix simulatedBluetooth exampleInitiator
      7 7 "svc1" "ep1" "ep1" simulatedBluetooth_acceptsOnceStarted (by decide) rfl rfl).2.2.1,
   (C12_second_initialize_starts_nothing wrapWithSuffix simulatedBluetooth exampleInitiator
      7 7 "svc1" "ep1" "ep1" simulatedBluetooth_acceptsOnceStarted (by decide) rfl rfl).2.2.2⟩

/-- C13, refuted as stated: it is not the case that for every adapter behaviour
and every state holding the derived id, the call leaves the
`StartAcceptingConnections` calls as they were.  Over the adapter that always
answers "not accepting", the state reached by one call for `svc1` holds the
derived id, and a second call for `svc1` attempts the start again. -/
theorem C13_present_id_counterexample :
    ¬ (∀ (bt : BluetoothClassic SimulatedMedium) (h : BluetoothBwuHandler SimulatedMedium),
        h.active_service_ids_.contains (wrapWithSuffix "svc1") = true →
          startCalls (InitializeUpgradedMediumForEndpoint wrapWithSuffix bt h
            7 "svc1" "ep1").2.events = startCalls h.events) := by
  intro hall
  have hcall := hall forgetfulBluetooth
    (InitializeUpgradedMediumForEndpoint wrapWithSuffix forgetfulBluetooth exampleInitiator
      7 "svc1" "ep1").2 rfl
  have hlen := congrArg List.length hcall
  exact absurd hlen (by decide)

/-- C13, amended: the guard is the adapter's answer, not the set.  For every
handler state and adapter behaviour the call attempts no
`StartAcceptingConnections` if and only if the local address is empty or the
adapter reports that it is accepting on the derived id; otherwise it attempts
exactly one, for the derived id.  The set never holds an id twice: it is left
as it was, or gains the derived id, which was absent. -/
theorem C13_start_guarded_by_adapter (wrap : String → String) (bt : BluetoothClassic σ)
    (h : BluetoothBwuHandler σ) (client : ClientProxy) (s endpoint_id : String) :
    (startCalls (InitializeUpgradedMediumForEndpoint wrap bt h client s endpoint_id).2.events
          = startCalls h.events ↔
        (localAddress bt h = "" ∨ alreadyAccepting bt h (wrap s) = true)) ∧
      (startCalls (InitializeUpgradedMediumForEndpoint wrap bt h client s endpoint_id).2.events
          = startCalls h.events ∨
        startCalls (InitializeUpgradedMediumForEndpoint wrap bt h client s endpoint_id).2.events
          = startCalls h.events ++ [(wrap s, ⟨client, s⟩)]) ∧
      ((InitializeUpgradedMediumForEndpoint wrap bt h client s
            endpoint_id).2.active_service_ids_.elems = h.active_service_ids_.elems ∨
        (wrap s ∉ h.active_service_ids_.elems ∧
          (InitializeUpgradedMediumForEndpoint wrap bt h client s
            endpoint_id).2.active_service_ids_.elems
              = h.active_service_ids_.elems ++ [wrap s])) := by
  have hev := Initialize_events wrap bt h client s endpoint_id
  refine ⟨?_, ?_, ?_⟩
  · rw [hev, startCalls_append]
    by_cases hmac : localAddress bt h = ""
    · simp [hmac, startCalls]
    · cases hacc : alreadyAccepting bt h (wrap s) with
      | true => simp [hmac, startCalls]
      | false => simp [hmac, startCalls]
  · rw [hev, startCalls_append]
    by_cases hmac : localAddress bt h = ""
    · simp [hmac, startCalls]
    · cases hacc : alreadyAccepting bt h (wrap s) with
      | true => simp [hmac, startCalls]
      | false => simp [hmac, startCalls]
  · rcases Initialize_active wrap bt h client s endpoint_id with hsame | hadd
    · exact Or.inl (by rw [hsame])
    · rw [hadd]
      by_cases hmem : wrap s ∈ h.active_service_ids_.elems
      · exact Or.inl (emplaceList_of_mem _ _ hmem)
      · refine Or.inr ⟨hmem, ?_⟩
        simp [ServiceIdSet.emplace, emplaceList, hmem]

/-- C14: when the adapter's local address is empty,
`InitializeUpgradedMediumForEndpoint` returns the empty byte array having made
the single call `GetMacAddress`: neither `IsAcceptingConnections` nor
`StartAcceptingConnections` is called, so no accept callback is installed, and
the active-service-id set is unchanged. -/
theorem C14_no_address_returns_immediately (wrap : String → String)
    (bt : BluetoothClassic σ) (h : BluetoothBwuHandler σ) (client : ClientProxy)
    (service_id endpoint_id : String) (hmac : localAddress bt h = "") :
    (InitializeUpgradedMediumForEndpoint wrap bt h client service_id endpoint_id).1 = [] ∧
      (InitializeUpgradedMediumForEndpoint wrap bt h client service_id endpoint_id).2.events
        = h.events ++ [Event.GetMacAddress] ∧
      startCalls
          (InitializeUpgradedMediumForEndpoint wrap bt h client service_id endpoint_id).2.events
        = startCalls h.events ∧
      (InitializeUpgradedMediumForEndpoint wrap bt h client service_id
          endpoint_id).2.active_service_ids_ = h.active_service_ids_ := by
  rw [Initialize_of_no_address wrap bt h client service_id endpoint_id hmac]
  refine ⟨rfl, rfl, ?_, rfl⟩
  simp [callGetMacAddress, startCalls_append, startCalls]

/-- C14, at the example scenario: `svc1`, `ep1`, an adapter with no address. -/
theorem C14_no_address_returns_immediately_witness :
    localAddress simulatedBluetooth exampleNoAddress = "" ∧
      (InitializeUpgradedMediumForEndpoint wrapWithSuffix simulatedBluetooth exampleNoAddress
        7 "svc1" "ep1").1 = [] ∧
      (InitializeUpgradedMediumForEndpoint wrapWithSuffix simulatedBluetooth exampleNoAddress
        7 "svc1" "ep1").2.events = [Event.GetMacAddress] :=
  ⟨rfl,
   (C14_no_address_returns_immediately wrapWithSuffix simulatedBluetooth exampleNoAddress
      7 "svc1" "ep1" rfl).1,
   (C14_no_address_returns_immediately wrapWithSuffix simulatedBluetooth exampleNoAddress
      7 "svc1" "ep1" rfl).2.1⟩

/-- C15: when the adapter is not accepting on the derived id and refuses to
start (`StartAcceptingConnections` returns false),
`InitializeUpgradedMediumForEndpoint` returns the empty byte array and records
nothing: the active-service-id set after the call equals the set before it.
With a non-empty address the refused start is the last call made. -/
theorem C15_refused_start_records_nothing (wrap : String → String)
    (bt : BluetoothClassic σ) (h : BluetoothBwuHandler σ) (client : ClientProxy)
    (service_id endpoint_id : String)
    (hacc : alreadyAccepting bt h (wrap service_id) = false)
    (hstart : listenerStarts bt h (wrap service_id) ⟨client, service_id⟩ = false) :
    (InitializeUpgradedMediumForEndpoint wrap bt h client service_id endpoint_id).1 = [] ∧
      (InitializeUpgradedMediumForEndpoint wrap bt h client service_id
          endpoint_id).2.active_service_ids_ = h.active_service_ids_ ∧
      (localAddress bt h ≠ "" →
        (InitializeUpgradedMediumForEndpoint wrap bt h client service_id endpoint_id).2.events
          = h.events ++
            [Event.GetMacAddress, Event.IsAcceptingConnections (wrap service_id),
             Event.StartAcceptingConnections (wrap service_id) ⟨client, service_id⟩]) := by
  by_cases hmac : localAddress bt h = ""
  · rw [Initialize_of_no_address wrap bt h client service_id endpoint_id hmac]
    exact ⟨rfl, rfl, fun hne => absurd hmac hne⟩
  · have hev := Initialize_events wrap bt h client service_id endpoint_id
    rw [if_neg hmac, hacc] at hev
    simp only [Bool.false_eq_true, if_false] at hev
    refine ⟨?_, ?_, fun _ => hev⟩
    · rw [Initialize_of_start_failure wrap bt h client service_id endpoint_id hmac hacc hstart]
    · rw [Initialize_of_start_failure wrap bt h client service_id endpoint_id hmac hacc hstart]
      rfl

/-- C15, at the example scenario: an adapter with an address that refuses to
start the listener for `svc1`. -/
theorem C15_refused_start_records_nothing_witness :
    listenerStarts simulatedBluetooth exampleRefusing (wrapWithSuffix "svc1") ⟨7, "svc1"⟩
        = false ∧
      (InitializeUpgradedMediumForEndpoint wrapWithSuffix simulatedBluetooth exampleRefusing
        7 "svc1" "ep1").1 = [] ∧
      (InitializeUpgradedMediumForEndpoint wrapWithSuffix simulatedBluetooth exampleRefusing
        7 "svc1" "ep1").2.active_service_ids_ = exampleRefusing.active_service_ids_ ∧
      (InitializeUpgradedMediumForEndpoint wrapWithSuffix simulatedBluetooth exampleRefusing
        7 "svc1" "ep1").2.events
          = [Event.GetMacAddress, Event.IsAcceptingConnections "svc1_UPGRADE",
             Event.StartAcceptingConnections "svc1_UPGRADE" ⟨7, "svc1"⟩] :=
  ⟨rfl,
   (C15_refused_start_records_nothing wrapWithSuffix simulatedBluetooth exampleRefusing
      7 "svc1" "ep1" rfl rfl).1,
   (C15_refused_start_records_nothing wrapWithSuffix simulatedBluetooth exampleRefusing
      7 "svc1" "ep1" rfl rfl).2.1,
   (C15_refused_start_records_nothing wrapWithSuffix simulatedBluetooth exampleRefusing
      7 "svc1" "ep1" rfl rfl).2.2 (by decide)⟩

/-! ## The accept callback -/

theorem invokeAcceptedCallback_events (h : BluetoothBwuHandler σ) (cb : AcceptedCallback)
    (socket : BluetoothSocket) :
    (invokeAcceptedCallback h cb socket).events
      = h.events ++
        [Event.MakeEndpointChannel cb.service_id socket,
         Event.MakeIncomingSocket cb.service_id socket,
         Event.IncomingConnectionCb cb.client (incomingConnectionOf cb socket)] := rfl

theorem invokeAcceptedCallback_sink (h : BluetoothBwuHandler σ) (cb : AcceptedCallback)
    (socket : BluetoothSocket) :
    sinkInvocations (invokeAcceptedCallback h cb socket).events
      = sinkInvocations h.events ++ [(cb.client, incomingConnectionOf cb socket)] := by
  rw [invokeAcceptedCallback_events, sinkInvocations_append]
  rfl

theorem deliverAccepts_sink :
    ∀ (accepts : List (AcceptedCallback × BluetoothSocket)) (h : BluetoothBwuHandler σ),
      sinkInvocations (deliverAccepts accepts h).events
        = sinkInvocations h.events
          ++ accepts.map (fun a => (a.1.client, incomingConnectionOf a.1 a.2)) := by
  intro accepts
  induction accepts with
  | nil => intro h; simp [deliverAccepts]
  | cons a rest ih =>
    intro h
    obtain ⟨cb, socket⟩ := a
    simp [deliverAccepts, ih, invokeAcceptedCallback_sink]

theorem Revert_sink (bt : BluetoothClassic σ) (h : BluetoothBwuHandler σ) :
    sinkInvocations (Revert bt h).events = sinkInvocations h.events := by
  have hev : (Revert bt h).events
      = h.events ++ h.active_service_ids_.elems.map Event.StopAcceptingConnections := by
    simp [Revert, RevertLoop_events]
  rw [hev, sinkInvocations_append]
  have hnone : ∀ ids : List String,
      sinkInvocations (ids.map Event.StopAcceptingConnections) = [] := by
    intro ids
    induction ids with
    | nil => rfl
    | cons id rest ih => simpa [sinkInvocations] using ih
  rw [hnone]
  simp

/-- C16: one accept event makes `OnIncomingBluetoothConnection` construct one
channel, one inbound socket wrapper and one IncomingConnection pairing them,
and invoke the notification sink once with it.  A sequence of `n` accept events
adds exactly `n` sink invocations to the log, one per event and in the order of
the events: none is duplicated and none is dropped. -/
theorem C16_one_sink_invocation_per_accept (h : BluetoothBwuHandler σ)
    (cb : AcceptedCallback) (socket : BluetoothSocket)
    (accepts : List (AcceptedCallback × BluetoothSocket)) :
    (invokeAcceptedCallback h cb socket).events
        = h.events ++
          [Event.MakeEndpointChannel cb.service_id socket,
           Event.MakeIncomingSocket cb.service_id socket,
           Event.IncomingConnectionCb cb.client (incomingConnectionOf cb socket)] ∧
      sinkInvocations (invokeAcceptedCallback h cb socket).events
        = sinkInvocations h.events ++ [(cb.client, incomingConnectionOf cb socket)] ∧
      sinkInvocations (deliverAccepts accepts h).events
        = sinkInvocations h.events
          ++ accepts.map (fun a => (a.1.client, incomingConnectionOf a.1 a.2)) ∧
      (sinkInvocations (deliverAccepts accepts h).events).length
        = (sinkInvocations h.events).length + accepts.length := by
  refine ⟨invokeAcceptedCallback_events h cb socket, invokeAcceptedCallback_sink h cb socket,
    deliverAccepts_sink accepts h, ?_⟩
  rw [deliverAccepts_sink]
  simp

/-- C17, refuted as stated: it is not the case that in every state from which
the callback's upgrade service id is absent the accept callback leaves the sink
invocations as they were.  In the state reached by initializing for `svc1` and
then reverting, the derived id is absent, and the callback installed for `svc1`
still invokes the sink. -/
theorem C17_late_callback_counterexample :
    ¬ (∀ (h : BluetoothBwuHandler SimulatedMedium) (cb : AcceptedCallback)
        (socket : BluetoothSocket),
        h.active_service_ids_.contains (wrapWithSuffix cb.service_id) = false →
          sinkInvocations (invokeAcceptedCallback h cb socket).events
            = sinkInvocations h.events) := by
  intro hall
  have hcall := hall
    (Revert simulatedBluetooth
      (InitializeUpgradedMediumForEndpoint wrapWithSuffix simulatedBluetooth exampleInitiator
        7 "svc1" "ep1").2)
    ⟨7, "svc1"⟩ ⟨some 5⟩ rfl
  have hlen := congrArg List.length hcall
  exact absurd hlen (by decide)

/-- C17, amended: the accept callback does not consult the active-service-id
set.  In every state, the states reached by `Revert()` included, it invokes the
notification sink exactly once with the IncomingConnection around the accepted
socket; it always returns and leaves the set as it is. -/
theorem C17_callback_ignores_state (bt : BluetoothClassic σ) (h : BluetoothBwuHandler σ)
    (cb : AcceptedCallback) (socket : BluetoothSocket) :
    sinkInvocations (invokeAcceptedCallback h cb socket).events
        = sinkInvocations h.events ++ [(cb.client, incomingConnectionOf cb socket)] ∧
      (invokeAcceptedCallback h cb socket).active_service_ids_ = h.active_service_ids_ ∧
      sinkInvocations (invokeAcceptedCallback (Revert bt h) cb socket).events
        = sinkInvocations h.events ++ [(cb.client, incomingConnectionOf cb socket)] ∧
      (invokeAcceptedCallback (Revert bt h) cb socket).active_service_ids_.elems = [] := by
  refine ⟨invokeAcceptedCallback_sink h cb socket, rfl, ?_, rfl⟩
  rw [invokeAcceptedCallback_sink, Revert_sink]

/-! ## Who changes the active-service-id set -/

theorem Create_active (bt : BluetoothClassic σ) (h : BluetoothBwuHandler σ)
    (client : ClientProxy) (service_id endpoint_id : String) (info : UpgradePathInfo) :
    (CreateUpgradedEndpointChannel bt h client service_id endpoint_id
      info).2.active_service_ids_ = h.active_service_ids_ := by
  unfold CreateUpgradedEndpointChannel
  simp only []
  split
  · rfl
  · split
    · rfl
    · split
      · rfl
      · rfl

/-- C18: `CreateUpgradedEndpointChannel` and the accept callback
`OnIncomingBluetoothConnection` leave the active-service-id set unchanged for
every input, and `InitializeUpgradedMediumForEndpoint` removes nothing: every
id of the set before the call is in the set after it.  Only `Revert()` removes
entries and only `InitializeUpgradedMediumForEndpoint` adds one. -/
theorem C18_state_frame (wrap : String → String) (bt : BluetoothClassic σ)
    (h : BluetoothBwuHandler σ) (client : ClientProxy) (service_id endpoint_id : String)
    (info : UpgradePathInfo) (socket : BluetoothSocket) :
    (CreateUpgradedEndpointChannel bt h client service_id endpoint_id
        info).2.active_service_ids_ = h.active_service_ids_ ∧
      (OnIncomingBluetoothConnection h client service_id socket).active_service_ids_
        = h.active_service_ids_ ∧
      h.active_service_ids_.elems ⊆
        (InitializeUpgradedMediumForEndpoint wrap bt h client service_id
          endpoint_id).2.active_service_ids_.elems := by
  refine ⟨Create_active bt h client service_id endpoint_id info, rfl, ?_⟩
  rcases Initialize_active wrap bt h client service_id endpoint_id with hsame | hadd
  · rw [hsame]
    exact List.Subset.refl _
  · rw [hadd]
    intro x hx
    exact (mem_emplaceList _ _ _).2 (Or.inr hx)

/-! ## The state machine -/

/-- C19: every handler state is Idle or Accepting; `Revert()` leads from any
state to Idle; and from an Idle state, `InitializeUpgradedMediumForEndpoint`
for `s` with a non-empty local address and a listener that is started (or
already accepting) returns non-empty credentials and leads to Accepting with
the active-service-id set holding exactly the derived id. -/
theorem C19_idle_accepting_cycle (wrap : String → String) (bt : BluetoothClassic σ)
    (h g : BluetoothBwuHandler σ) (client : ClientProxy) (s endpoint_id : String)
    (hidle : phase g = Phase.Idle)
    (hmac : localAddress bt g ≠ "")
    (hok : alreadyAccepting bt g (wrap s) = true ∨
      listenerStarts bt g (wrap s) ⟨client, s⟩ = true) :
    (phase h = Phase.Idle ∨ phase h = Phase.Accepting) ∧
      phase (Revert bt h) = Phase.Idle ∧
      (InitializeUpgradedMediumForEndpoint wrap bt g client s endpoint_id).1 ≠ [] ∧
      (InitializeUpgradedMediumForEndpoint wrap bt g client s
          endpoint_id).2.active_service_ids_.elems = [wrap s] ∧
      phase (InitializeUpgradedMediumForEndpoint wrap bt g client s endpoint_id).2
        = Phase.Accepting := by
  obtain ⟨hbytes, hids⟩ := Initialize_of_success wrap bt g client s endpoint_id hmac hok
  have hempty : g.active_service_ids_.elems = [] := by
    unfold phase at hidle
    cases hg : g.active_service_ids_.elems with
    | nil => rfl
    | cons a rest => simp [hg] at hidle
  have helems : (InitializeUpgradedMediumForEndpoint wrap bt g client s
      endpoint_id).2.active_service_ids_.elems = [wrap s] := by
    rw [hids]
    simp [ServiceIdSet.emplace, emplaceList, hempty]
  refine ⟨?_, rfl, ?_, helems, ?_⟩
  · unfold phase
    cases h.active_service_ids_.elems.isEmpty <;> simp
  · rw [hbytes]
    exact ForBwuBluetoothPathAvailable_ne_nil _ _
  · unfold phase
    rw [helems]
    rfl

/-- C19, at the example scenario: the handler with two active ids is reverted to
Idle, and initializing for `svc1` from there leads to Accepting with exactly
the id derived from `svc1`. -/
theorem C19_idle_accepting_cycle_witness :
    phase exampleAccepting = Phase.Accepting ∧
      phase (Revert simulatedBluetooth exampleAccepting) = Phase.Idle ∧
      (InitializeUpgradedMediumForEndpoint wrapWithSuffix simulatedBluetooth
        (Revert simulatedBluetooth exampleAccepting) 7 "svc1"
        "ep1").2.active_service_ids_.elems = [wrapWithSuffix "svc1"] ∧
      phase (InitializeUpgradedMediumForEndpoint wrapWithSuffix simulatedBluetooth
        (Revert simulatedBluetooth exampleAccepting) 7 "svc1" "ep1").2 = Phase.Accepting :=
  ⟨rfl,
   (C19_idle_accepting_cycle wrapWithSuffix simulatedBluetooth exampleAccepting
      (Revert simulatedBluetooth exampleAccepting) 7 "svc1" "ep1" rfl (by decide)
      (Or.inr rfl)).2.1,
   (C19_idle_accepting_cycle wrapWithSuffix simulatedBluetooth exampleAccepting
      (Revert simulatedBluetooth exampleAccepting) 7 "svc1" "ep1" rfl (by decide)
      (Or.inr rfl)).2.2.2.1,
   (C19_idle_accepting_cycle wrapWithSuffix simulatedBluetooth exampleAccepting
      (Revert simulatedBluetooth exampleAccepting) 7 "svc1" "ep1" rfl (by decide)
      (Or.inr rfl)).2.2.2.2⟩

end BluetoothBwuHandler

/-! ## Scan manager -/

namespace Presence

namespace ScanManager

variable {μ : Type}

theorem StartScan_of_empty (ble : Ble μ) (mgr : ScanManager μ) (id : Nat)
    (scan_request : ScanRequest) (device_found_callback : BleDeviceFoundCallback)
    (cb : ScanningCallback) (hempty : mgr.scanning_callbacks_.entries = []) :
    (StartScan ble mgr id scan_request device_found_callback cb).2.scanning_callbacks_.entries
      = [(id, device_found_callback)] := by
  simp [StartScan, ScanningCallbacksMap.emplace, emplaceEntries, hempty]

/-- C20: on a scan manager with no registered scanning callback, `StartScan`
registers exactly one callback, the device-found callback passed to it under
the drawn id (`ScanningCallbacksLengthForTest()` is 1).  The first call of the
returned session's `stop_scan_callback`, when the medium's stop reports neither
`kFailed` nor `kUnknown`, returns the status `kSuccess` and removes the
registration (the length is 0 again). -/
theorem C20_start_then_stop (ble : Ble μ) (mgr : ScanManager μ) (id : Nat)
    (scan_request : ScanRequest) (device_found_callback : BleDeviceFoundCallback)
    (cb : ScanningCallback)
    (hempty : mgr.ScanningCallbacksLengthForTest = 0)
    (hstop :
      ((StartScan ble mgr id scan_request device_found_callback cb).1.scanning_session_cb
          (StartScan ble mgr id scan_request device_found_callback cb).2.mediums_).1
        ≠ BleOperationStatus.kFailed ∧
      ((StartScan ble mgr id scan_request device_found_callback cb).1.scanning_session_cb
          (StartScan ble mgr id scan_request device_found_callback cb).2.mediums_).1
        ≠ BleOperationStatus.kUnknown) :
    (StartScan ble mgr id scan_request device_found_callback
        cb).2.ScanningCallbacksLengthForTest = 1 ∧
      (StartScan ble mgr id scan_request device_found_callback cb).2.scanning_callbacks_.find id
        = some device_found_callback ∧
      (stop_scan_callback (StartScan ble mgr id scan_request device_found_callback cb).1
          (StartScan ble mgr id scan_request device_found_callback cb).2).1.value
        = StatusValue.kSuccess ∧
      (stop_scan_callback (StartScan ble mgr id scan_request device_found_callback cb).1
          (StartScan ble mgr id scan_request device_found_callback
            cb).2).2.ScanningCallbacksLengthForTest = 0 := by
  have hnil : mgr.scanning_callbacks_.entries = [] :=
    List.eq_nil_of_length_eq_zero hempty
  have hentries := StartScan_of_empty ble mgr id scan_request device_found_callback cb hnil
  have hfind : (StartScan ble mgr id scan_request device_found_callback
      cb).2.scanning_callbacks_.find id = some device_found_callback := by
    simp [ScanningCallbacksMap.find, hentries]
  have hid : (StartScan ble mgr id scan_request device_found_callback cb).1.id = id := rfl
  obtain ⟨hfailed, hunknown⟩ := hstop
  refine ⟨?_, hfind, ?_, ?_⟩
  · simp [ScanningCallbacksLengthForTest, ScanningCallbacksMap.size, hentries]
  · simp [stop_scan_callback, hid, hfind, hfailed, hunknown]
  · simp [stop_scan_callback, hid, hfind, hfailed, hunknown]
    simp [ScanningCallbacksLengthForTest, ScanningCallbacksMap.size,
      ScanningCallbacksMap.erase, hentries]

/-- C20, at the example scenario: a manager with no callback over a medium whose
stop succeeds; one scan is started under the id `42` and stopped. -/
theorem C20_start_then_stop_witness :
    exampleScanManager.ScanningCallbacksLengthForTest = 0 ∧
      (StartScan simulatedBle exampleScanManager 42 0 ⟨1⟩ ⟨2, 3⟩).2.ScanningCallbacksLengthForTest
        = 1 ∧
      (stop_scan_callback (StartScan simulatedBle exampleScanManager 42 0 ⟨1⟩ ⟨2, 3⟩).1
          (StartScan simulatedBle exampleScanManager 42 0 ⟨1⟩ ⟨2, 3⟩).2).1.value
        = StatusValue.kSuccess ∧
      (stop_scan_callback (StartScan simulatedBle exampleScanManager 42 0 ⟨1⟩ ⟨2, 3⟩).1
          (StartScan simulatedBle exampleScanManager 42 0 ⟨1⟩
            ⟨2, 3⟩).2).2.ScanningCallbacksLengthForTest = 0 :=
  ⟨rfl,
   (C20_start_then_stop simulatedBle exampleScanManager 42 0 ⟨1⟩ ⟨2, 3⟩ rfl
      ⟨by decide, by decide⟩).1,
   (C20_start_then_stop simulatedBle exampleScanManager 42 0 ⟨1⟩ ⟨2, 3⟩ rfl
      ⟨by decide, by decide⟩).2.2.1,
   (C20_start_then_stop simulatedBle exampleScanManager 42 0 ⟨1⟩ ⟨2, 3⟩ rfl
      ⟨by decide, by decide⟩).2.2.2⟩

end ScanManager

/-! ## Scan manager: the registered ids -/

namespace ScanManager

variable {μ : Type}

theorem find_eq_none_iff (m : ScanningCallbacksMap) (id : Nat) :
    m.find id = none ↔ id ∉ m.keys := by
  simp only [ScanningCallbacksMap.find, ScanningCallbacksMap.keys, Option.map_eq_none',
    List.find?_eq_none, List.mem_map, not_exists, not_and]
  constructor
  · intro hall e he heq
    exact hall e he (by simp [heq])
  · intro hall e he hbeq
    exact hall e he (by simpa using hbeq)

theorem find_isSome_iff (m : ScanningCallbacksMap) (id : Nat) :
    (m.find id).isSome = true ↔ id ∈ m.keys := by
  cases hf : m.find id with
  | none =>
    have hnot := (find_eq_none_iff m id).1 hf
    simp [hnot]
  | some it =>
    have hin : id ∈ m.keys := by
      by_contra hnot
      rw [(find_eq_none_iff m id).2 hnot] at hf
      exact Option.noConfusion hf
    simp [hin]

theorem find_mem (m : ScanningCallbacksMap) (id : Nat) (it : BleDeviceFoundCallback)
    (hf : m.find id = some it) : (id, it) ∈ m.entries := by
  simp only [ScanningCallbacksMap.find, Option.map_eq_some'] at hf
  obtain ⟨e, he, hsnd⟩ := hf
  have hmem := List.mem_of_find?_eq_some he
  have hkey := List.find?_some he
  have hfst : e.1 = id := by simpa using hkey
  have heq : e = (id, it) := Prod.ext hfst hsnd
  rw [← heq]
  exact hmem

theorem keys_erase (m : ScanningCallbacksMap) (id : Nat) :
    (m.erase id).keys = m.keys.filter (fun k => k != id) := by
  simp only [ScanningCallbacksMap.erase, ScanningCallbacksMap.keys, List.filter_map]
  rfl

theorem not_mem_keys_erase (m : ScanningCallbacksMap) (id k : Nat)
    (hk : k = id ∨ k ∉ m.keys) : k ∉ (m.erase id).keys := by
  rw [keys_erase]
  intro hmem
  have hboth := List.mem_filter.1 hmem
  rcases hk with hk | hk
  · have hne := hboth.2
    simp [hk] at hne
  · exact hk hboth.1

theorem keys_emplace (m : ScanningCallbacksMap) (id : Nat) (cb : BleDeviceFoundCallback) :
    (m.emplace id cb).keys = if id ∈ m.keys then m.keys else m.keys ++ [id] := by
  simp only [ScanningCallbacksMap.emplace, ScanningCallbacksMap.keys, emplaceEntries]
  split <;> simp

theorem not_mem_keys_emplace (m : ScanningCallbacksMap) (id k : Nat)
    (cb : BleDeviceFoundCallback) (hne : id ≠ k) (hk : k ∉ m.keys) :
    k ∉ (m.emplace id cb).keys := by
  rw [keys_emplace]
  split
  · exact hk
  · intro hmem
    rcases List.mem_append.1 hmem with h1 | h1
    · exact hk h1
    · simp at h1
      exact hne h1.symm

theorem stop_of_unregistered (session : ScanSession μ) (mgr : ScanManager μ)
    (hnone : session.id ∉ mgr.scanning_callbacks_.keys) :
    stop_scan_callback session mgr = (⟨StatusValue.kError⟩, mgr) := by
  have hf := (find_eq_none_iff mgr.scanning_callbacks_ session.id).2 hnone
  simp [stop_scan_callback, hf]

theorem stop_callbacks (session : ScanSession μ) (mgr : ScanManager μ) :
    (stop_scan_callback session mgr).2.scanning_callbacks_ = mgr.scanning_callbacks_ ∨
      (stop_scan_callback session mgr).2.scanning_callbacks_
        = mgr.scanning_callbacks_.erase session.id := by
  unfold stop_scan_callback
  split
  · exact Or.inl rfl
  · simp only []
    split <;> exact Or.inr rfl

theorem not_mem_keys_after_stop (session : ScanSession μ) (mgr : ScanManager μ) :
    session.id ∉ (stop_scan_callback session mgr).2.scanning_callbacks_.keys := by
  by_cases hreg : session.id ∈ mgr.scanning_callbacks_.keys
  · rcases stop_callbacks session mgr with hsame | herase
    · have hsome := (find_isSome_iff mgr.scanning_callbacks_ session.id).2 hreg
      cases hf : mgr.scanning_callbacks_.find session.id with
      | none => simp [hf] at hsome
      | some it =>
        have : (stop_scan_callback session mgr).2.scanning_callbacks_
            = mgr.scanning_callbacks_.erase session.id := by
          unfold stop_scan_callback
          simp only [hf]
          split <;> rfl
        rw [this]
        exact not_mem_keys_erase _ _ _ (Or.inl rfl)
    · rw [herase]
      exact not_mem_keys_erase _ _ _ (Or.inl rfl)
  · rw [stop_of_unregistered session mgr hreg]
    exact hreg

theorem NotifyFoundBle_callbacks (mgr : ScanManager μ) (id : Nat) (pd : PresenceDevice) :
    (NotifyFoundBle mgr id pd).2.scanning_callbacks_ = mgr.scanning_callbacks_ := by
  unfold NotifyFoundBle
  split <;> rfl

theorem apply_keeps_unregistered (ble : Ble μ) (op : ScanOp μ) (mgr : ScanManager μ) (k : Nat)
    (hop : op.drawn ≠ some k) (hk : k ∉ mgr.scanning_callbacks_.keys) :
    k ∉ (op.apply ble mgr).scanning_callbacks_.keys := by
  cases op with
  | startScan id scan_request device_found_callback cb =>
    have hne : id ≠ k := by
      intro heq
      exact hop (by simp [ScanOp.drawn, heq])
    exact not_mem_keys_emplace _ _ _ _ hne hk
  | stopScan session =>
    simp only [ScanOp.apply]
    rcases stop_callbacks session mgr with hsame | herase
    · rw [hsame]
      exact hk
    · rw [herase]
      exact not_mem_keys_erase _ _ _ (Or.inr hk)
  | notifyFoundBle id pd =>
    simp only [ScanOp.apply, NotifyFoundBle_callbacks]
    exact hk
  | advertisementFound callback =>
    simp only [ScanOp.apply, advertisement_found_cb, NotifyFoundBle_callbacks]
    exact hk

theorem applyOps_keeps_unregistered (ble : Ble μ) (k : Nat) :
    ∀ (ops : List (ScanOp μ)) (mgr : ScanManager μ),
      (∀ op ∈ ops, op.drawn ≠ some k) → k ∉ mgr.scanning_callbacks_.keys →
        k ∉ (applyOps ble ops mgr).scanning_callbacks_.keys := by
  intro ops
  induction ops with
  | nil => intro mgr _ hk; exact hk
  | cons op rest ih =>
    intro mgr hops hk
    exact ih (op.apply ble mgr) (fun o ho => hops o (List.mem_cons_of_mem _ ho))
      (apply_keeps_unregistered ble op mgr k (hops op (List.mem_cons_self _ _)) hk)

end ScanManager

/-! ## Scan manager: stopping and notifying -/

namespace ScanManager

variable {μ : Type}

/-- C21: once a session's `stop_scan_callback` has been called, every later call
of it, after any operations on the manager in which no `StartScan` draws the
session's id again, returns the status `kError`, does not reach the medium's
stop (the manager, its medium state and its log are unchanged) and leaves the
registered callbacks as they are. -/
theorem C21_cannot_stop_twice (ble : Ble μ) (mgr : ScanManager μ) (session : ScanSession μ)
    (ops : List (ScanOp μ)) (hops : ∀ op ∈ ops, op.drawn ≠ some session.id) :
    (stop_scan_callback session
        (applyOps ble ops (stop_scan_callback session mgr).2)).1.value = StatusValue.kError ∧
      (stop_scan_callback session (applyOps ble ops (stop_scan_callback session mgr).2)).2
        = applyOps ble ops (stop_scan_callback session mgr).2 ∧
      stopCalls (stop_scan_callback session
          (applyOps ble ops (stop_scan_callback session mgr).2)).2.events
        = stopCalls (applyOps ble ops (stop_scan_callback session mgr).2).events ∧
      (stop_scan_callback session
          (applyOps ble ops (stop_scan_callback session mgr).2)).2.scanning_callbacks_.entries
        = (applyOps ble ops (stop_scan_callback session mgr).2).scanning_callbacks_.entries := by
  have hgone := applyOps_keeps_unregistered ble session.id ops
    (stop_scan_callback session mgr).2 hops (not_mem_keys_after_stop session mgr)
  rw [stop_of_unregistered session _ hgone]
  exact ⟨rfl, rfl, rfl, rfl⟩

/-- C21, at the example scenario: a scan started under the id `42` is stopped;
after a notification, another scan started under `43` and a further stop of the
first session, stopping the first session again returns `kError` and the medium
has been reached by one stop only. -/
theorem C21_cannot_stop_twice_witness :
    (stop_scan_callback (StartScan simulatedBle exampleScanManager 42 0 ⟨1⟩ ⟨2, 3⟩).1
        (StartScan simulatedBle exampleScanManager 42 0 ⟨1⟩ ⟨2, 3⟩).2).1.value
          = StatusValue.kSuccess ∧
      (stop_scan_callback (StartScan simulatedBle exampleScanManager 42 0 ⟨1⟩ ⟨2, 3⟩).1
        (applyOps simulatedBle
          [ScanOp.notifyFoundBle 42 5, ScanOp.startScan 43 0 ⟨4⟩ ⟨5, 6⟩,
           ScanOp.stopScan (StartScan simulatedBle exampleScanManager 42 0 ⟨1⟩ ⟨2, 3⟩).1]
          (stop_scan_callback (StartScan simulatedBle exampleScanManager 42 0 ⟨1⟩ ⟨2, 3⟩).1
            (StartScan simulatedBle exampleScanManager 42 0 ⟨1⟩ ⟨2, 3⟩).2).2)).1.value
          = StatusValue.kError ∧
      stopCalls (stop_scan_callback (StartScan simulatedBle exampleScanManager 42 0 ⟨1⟩ ⟨2, 3⟩).1
        (applyOps simulatedBle
          [ScanOp.notifyFoundBle 42 5, ScanOp.startScan 43 0 ⟨4⟩ ⟨5, 6⟩,
           ScanOp.stopScan (StartScan simulatedBle exampleScanManager 42 0 ⟨1⟩ ⟨2, 3⟩).1]
          (stop_scan_callback (StartScan simulatedBle exampleScanManager 42 0 ⟨1⟩ ⟨2, 3⟩).1
            (StartScan simulatedBle exampleScanManager 42 0 ⟨1⟩ ⟨2, 3⟩).2).2)).2.events = 1 :=
  ⟨rfl,
   (C21_cannot_stop_twice simulatedBle
      (StartScan simulatedBle exampleScanManager 42 0 ⟨1⟩ ⟨2, 3⟩).2
      (StartScan simulatedBle exampleScanManager 42 0 ⟨1⟩ ⟨2, 3⟩).1
      [ScanOp.notifyFoundBle 42 5, ScanOp.startScan 43 0 ⟨4⟩ ⟨5, 6⟩,
       ScanOp.stopScan (StartScan simulatedBle exampleScanManager 42 0 ⟨1⟩ ⟨2, 3⟩).1]
      (by simp [ScanOp.drawn, StartScan])).1,
   rfl⟩

/-- C22: after a session has been stopped, and after any operations on the
manager in which no `StartScan` draws the session's id again, `NotifyFoundBle`
with the session's id returns the status `kError` for every device and invokes
no callback: the manager and its log are unchanged. -/
theorem C22_cannot_notify_after_stop (ble : Ble μ) (mgr : ScanManager μ)
    (session : ScanSession μ) (pd : PresenceDevice)
    (ops : List (ScanOp μ)) (hops : ∀ op ∈ ops, op.drawn ≠ some session.id) :
    (NotifyFoundBle (applyOps ble ops (stop_scan_callback session mgr).2)
        session.id pd).1.value = StatusValue.kError ∧
      (NotifyFoundBle (applyOps ble ops (stop_scan_callback session mgr).2) session.id pd).2
        = applyOps ble ops (stop_scan_callback session mgr).2 ∧
      deviceFoundCalls
          (NotifyFoundBle (applyOps ble ops (stop_scan_callback session mgr).2)
            session.id pd).2.events
        = deviceFoundCalls (applyOps ble ops (stop_scan_callback session mgr).2).events := by
  have hgone := applyOps_keeps_unregistered ble session.id ops
    (stop_scan_callback session mgr).2 hops (not_mem_keys_after_stop session mgr)
  have hf := (find_eq_none_iff _ session.id).2 hgone
  have hr : NotifyFoundBle (applyOps ble ops (stop_scan_callback session mgr).2) session.id pd
      = (⟨StatusValue.kError⟩, applyOps ble ops (stop_scan_callback session mgr).2) := by
    simp [NotifyFoundBle, hf]
  rw [hr]
  exact ⟨rfl, rfl, rfl⟩

/-- C22, at the scenario of the test: a scan is started under the id `42`, a
device is found, the session is stopped, and a notification under `42` then
returns `kError` and invokes nothing more. -/
theorem C22_cannot_notify_after_stop_witness :
    (NotifyFoundBle (StartScan simulatedBle exampleScanManager 42 0 ⟨1⟩ ⟨2, 3⟩).2 42 0).1.value
        = StatusValue.kSuccess ∧
      (NotifyFoundBle
        (applyOps simulatedBle [ScanOp.notifyFoundBle 42 7]
          (stop_scan_callback (StartScan simulatedBle exampleScanManager 42 0 ⟨1⟩ ⟨2, 3⟩).1
            (StartScan simulatedBle exampleScanManager 42 0 ⟨1⟩ ⟨2, 3⟩).2).2)
        42 0).1.value = StatusValue.kError ∧
      deviceFoundCalls (NotifyFoundBle
        (applyOps simulatedBle [ScanOp.notifyFoundBle 42 7]
          (stop_scan_callback (StartScan simulatedBle exampleScanManager 42 0 ⟨1⟩ ⟨2, 3⟩).1
            (StartScan simulatedBle exampleScanManager 42 0 ⟨1⟩ ⟨2, 3⟩).2).2)
        42 0).2.events = [] :=
  ⟨rfl,
   (C22_cannot_notify_after_stop simulatedBle
      (StartScan simulatedBle exampleScanManager 42 0 ⟨1⟩ ⟨2, 3⟩).2
      (StartScan simulatedBle exampleScanManager 42 0 ⟨1⟩ ⟨2, 3⟩).1 0
      [ScanOp.notifyFoundBle 42 7] (by simp [ScanOp.drawn])).1,
   rfl⟩

end ScanManager

namespace ScanManager

variable {μ : Type}

theorem stop_of_registered (session : ScanSession μ) (mgr : ScanManager μ)
    (hreg : session.id ∈ mgr.scanning_callbacks_.keys) :
    stop_scan_callback session mgr
      = (⟨if (session.scanning_session_cb mgr.mediums_).1 = BleOperationStatus.kFailed ∨
            (session.scanning_session_cb mgr.mediums_).1 = BleOperationStatus.kUnknown
          then StatusValue.kError else StatusValue.kSuccess⟩,
         { mediums_ := (session.scanning_session_cb mgr.mediums_).2,
           scanning_callbacks_ := mgr.scanning_callbacks_.erase session.id,
           events := mgr.events ++ [ScanEvent.StopScanning] }) := by
  have hsome := (find_isSome_iff mgr.scanning_callbacks_ session.id).2 hreg
  cases hf : mgr.scanning_callbacks_.find session.id with
  | none => simp [hf] at hsome
  | some it =>
    unfold stop_scan_callback
    simp only [hf]
    split <;> rfl

/-- C26: `stop_scan_callback` returns `kSuccess` if and only if the session's id
is registered and the medium's stop reports neither `kFailed` nor `kUnknown`.
When the id is registered and the medium reports `kFailed` or `kUnknown`, the
callback returns `kError` after having reached the medium once, and the id has
been erased all the same: a retry returns `kError` without reaching the medium
and changes nothing. -/
theorem C26_stop_failure_erases (session : ScanSession μ) (mgr : ScanManager μ)
    (hreg : session.id ∈ mgr.scanning_callbacks_.keys)
    (hfail : (session.scanning_session_cb mgr.mediums_).1 = BleOperationStatus.kFailed ∨
      (session.scanning_session_cb mgr.mediums_).1 = BleOperationStatus.kUnknown) :
    (∀ (s : ScanSession μ) (m : ScanManager μ),
        (stop_scan_callback s m).1.value = StatusValue.kSuccess ↔
          (s.id ∈ m.scanning_callbacks_.keys ∧
            (s.scanning_session_cb m.mediums_).1 ≠ BleOperationStatus.kFailed ∧
            (s.scanning_session_cb m.mediums_).1 ≠ BleOperationStatus.kUnknown)) ∧
      (stop_scan_callback session mgr).1.value = StatusValue.kError ∧
      stopCalls (stop_scan_callback session mgr).2.events = stopCalls mgr.events + 1 ∧
      session.id ∉ (stop_scan_callback session mgr).2.scanning_callbacks_.keys ∧
      stop_scan_callback session (stop_scan_callback session mgr).2
        = (⟨StatusValue.kError⟩, (stop_scan_callback session mgr).2) := by
  refine ⟨?_, ?_, ?_, not_mem_keys_after_stop session mgr,
    stop_of_unregistered session _ (not_mem_keys_after_stop session mgr)⟩
  · intro s m
    by_cases hs : s.id ∈ m.scanning_callbacks_.keys
    · rw [stop_of_registered s m hs]
      by_cases hst : (s.scanning_session_cb m.mediums_).1 = BleOperationStatus.kFailed ∨
          (s.scanning_session_cb m.mediums_).1 = BleOperationStatus.kUnknown
      · simp only [if_pos hst]
        constructor
        · intro hc
          exact StatusValue.noConfusion hc
        · intro hc
          rcases hst with h1 | h1
          · exact absurd h1 hc.2.1
          · exact absurd h1 hc.2.2
      · simp only [if_neg hst]
        constructor
        · intro _
          exact ⟨hs, fun h1 => hst (Or.inl h1), fun h1 => hst (Or.inr h1)⟩
        · intro _
          trivial
    · rw [stop_of_unregistered s m hs]
      constructor
      · intro hc
        exact StatusValue.noConfusion hc
      · intro hc
        exact absurd hc.1 hs
  · rw [stop_of_registered session mgr hreg]
    simp only [if_pos hfail]
  · rw [stop_of_registered session mgr hreg]
    simp [stopCalls, List.count_append]

/-- C26, at the example scenario: a scan started under the id `42` over a medium
whose stop fails; the stop returns `kError`, the registration is gone and the
retry returns `kError` with one stop having reached the medium. -/
theorem C26_stop_failure_erases_witness :
    (StartScan simulatedBle exampleFailingScanManager 42 0 ⟨1⟩
        ⟨2, 3⟩).2.ScanningCallbacksLengthForTest = 1 ∧
      (stop_scan_callback (StartScan simulatedBle exampleFailingScanManager 42 0 ⟨1⟩ ⟨2, 3⟩).1
        (StartScan simulatedBle exampleFailingScanManager 42 0 ⟨1⟩ ⟨2, 3⟩).2).1.value
          = StatusValue.kError ∧
      (stop_scan_callback (StartScan simulatedBle exampleFailingScanManager 42 0 ⟨1⟩ ⟨2, 3⟩).1
        (StartScan simulatedBle exampleFailingScanManager 42 0 ⟨1⟩
          ⟨2, 3⟩).2).2.ScanningCallbacksLengthForTest = 0 ∧
      stop_scan_callback (StartScan simulatedBle exampleFailingScanManager 42 0 ⟨1⟩ ⟨2, 3⟩).1
        (stop_scan_callback (StartScan simulatedBle exampleFailingScanManager 42 0 ⟨1⟩ ⟨2, 3⟩).1
          (StartScan simulatedBle exampleFailingScanManager 42 0 ⟨1⟩ ⟨2, 3⟩).2).2
        = (⟨StatusValue.kError⟩,
           (stop_scan_callback
             (StartScan simulatedBle exampleFailingScanManager 42 0 ⟨1⟩ ⟨2, 3⟩).1
             (StartScan simulatedBle exampleFailingScanManager 42 0 ⟨1⟩ ⟨2, 3⟩).2).2) :=
  ⟨rfl,
   (C26_stop_failure_erases
      (StartScan simulatedBle exampleFailingScanManager 42 0 ⟨1⟩ ⟨2, 3⟩).1
      (StartScan simulatedBle exampleFailingScanManager 42 0 ⟨1⟩ ⟨2, 3⟩).2
      (by decide) (Or.inl rfl)).2.1,
   rfl,
   (C26_stop_failure_erases
      (StartScan simulatedBle exampleFailingScanManager 42 0 ⟨1⟩ ⟨2, 3⟩).1
      (StartScan simulatedBle exampleFailingScanManager 42 0 ⟨1⟩ ⟨2, 3⟩).2
      (by decide) (Or.inl rfl)).2.2.2.2⟩

theorem deviceFoundCalls_append (a b : List ScanEvent) :
    deviceFoundCalls (a ++ b) = deviceFoundCalls a ++ deviceFoundCalls b := by
  induction a with
  | nil => rfl
  | cons e rest ih => cases e <;> simp [deviceFoundCalls, ih]

/-- C27: for every id and device, `NotifyFoundBle` returns `kSuccess` if and
only if the id is a key of `scanning_callbacks_`.  In that case the log grows
by exactly one invocation, of the `device_found_cb` registered under the id and
with the given device; otherwise nothing is invoked.  In both cases the
registered callbacks are unchanged. -/
theorem C27_notify_invokes_registered (mgr : ScanManager μ) (id : Nat) (pd : PresenceDevice) :
    ((NotifyFoundBle mgr id pd).1.value = StatusValue.kSuccess ↔
        id ∈ mgr.scanning_callbacks_.keys) ∧
      (NotifyFoundBle mgr id pd).2.scanning_callbacks_ = mgr.scanning_callbacks_ ∧
      (NotifyFoundBle mgr id pd).2.scanning_callbacks_.keys = mgr.scanning_callbacks_.keys ∧
      (match mgr.scanning_callbacks_.find id with
       | none =>
         (NotifyFoundBle mgr id pd).2.events = mgr.events ∧
           deviceFoundCalls (NotifyFoundBle mgr id pd).2.events = deviceFoundCalls mgr.events
       | some it =>
         (id, it) ∈ mgr.scanning_callbacks_.entries ∧
           (NotifyFoundBle mgr id pd).2.events
             = mgr.events ++ [ScanEvent.DeviceFoundCb it.device_found_cb pd] ∧
           deviceFoundCalls (NotifyFoundBle mgr id pd).2.events
             = deviceFoundCalls mgr.events ++ [(it.device_found_cb, pd)]) := by
  cases hf : mgr.scanning_callbacks_.find id with
  | none =>
    have hnot := (find_eq_none_iff mgr.scanning_callbacks_ id).1 hf
    have hr : NotifyFoundBle mgr id pd = (⟨StatusValue.kError⟩, mgr) := by
      simp [NotifyFoundBle, hf]
    rw [hr]
    refine ⟨⟨fun hc => StatusValue.noConfusion hc, fun hc => absurd hc hnot⟩, rfl, rfl, rfl, rfl⟩
  | some it =>
    have hin : id ∈ mgr.scanning_callbacks_.keys :=
      (find_isSome_iff mgr.scanning_callbacks_ id).1 (by simp [hf])
    have hr : NotifyFoundBle mgr id pd
        = (⟨StatusValue.kSuccess⟩,
           { mgr with events := mgr.events ++ [ScanEvent.DeviceFoundCb it.device_found_cb pd] }) := by
      simp [NotifyFoundBle, hf]
    rw [hr]
    refine ⟨⟨fun _ => hin, fun _ => rfl⟩, rfl, rfl, find_mem _ _ _ hf, rfl, ?_⟩
    simp [deviceFoundCalls_append, deviceFoundCalls]

/-- C28, refuted as stated: it is not the case that for every manager state and
every drawn 64-bit id the number of registered callbacks grows by one and the id
maps to the callback passed.  In the state reached by a `StartScan` that drew
`42`, a second `StartScan` drawing `42` again leaves the number at one and the
id mapped to the first callback. -/
theorem C28_drawn_id_counterexample :
    ¬ (∀ (mgr : ScanManager SimulatedBle) (id : Nat)
        (device_found_callback : BleDeviceFoundCallback), id < 2 ^ 64 →
        (StartScan simulatedBle mgr id 0 device_found_callback
            ⟨2, 3⟩).2.ScanningCallbacksLengthForTest
          = mgr.ScanningCallbacksLengthForTest + 1 ∧
        (StartScan simulatedBle mgr id 0 device_found_callback
            ⟨2, 3⟩).2.scanning_callbacks_.find id = some device_found_callback) := by
  intro hall
  have hcall := (hall (StartScan simulatedBle exampleScanManager 42 0 ⟨1⟩ ⟨2, 3⟩).2 42 ⟨9⟩
    (by decide)).1
  exact absurd hcall (by decide)

/-- C28, amended: for every manager state and every drawn id that is not
already a key of `scanning_callbacks_`, after `StartScan` the number of
registered callbacks has grown by exactly one, the only new entry maps the
drawn id to the callback passed, and stopping the returned session leaves
exactly the entries there were before the `StartScan`: this session's
registration is removed and no other. -/
theorem C28_fresh_id_registers_once (ble : Ble μ) (mgr : ScanManager μ) (id : Nat)
    (scan_request : ScanRequest) (device_found_callback : BleDeviceFoundCallback)
    (cb : ScanningCallback) (hfresh : id ∉ mgr.scanning_callbacks_.keys) :
    (StartScan ble mgr id scan_request device_found_callback
          cb).2.ScanningCallbacksLengthForTest = mgr.ScanningCallbacksLengthForTest + 1 ∧
      (StartScan ble mgr id scan_request device_found_callback cb).2.scanning_callbacks_.entries
        = mgr.scanning_callbacks_.entries ++ [(id, device_found_callback)] ∧
      (StartScan ble mgr id scan_request device_found_callback cb).2.scanning_callbacks_.find id
        = some device_found_callback ∧
      (stop_scan_callback (StartScan ble mgr id scan_request device_found_callback cb).1
          (StartScan ble mgr id scan_request device_found_callback
            cb).2).2.scanning_callbacks_.entries = mgr.scanning_callbacks_.entries := by
  have hkeys : id ∉ mgr.scanning_callbacks_.entries.map Prod.fst := hfresh
  have hentries : (StartScan ble mgr id scan_request device_found_callback
      cb).2.scanning_callbacks_.entries
        = mgr.scanning_callbacks_.entries ++ [(id, device_found_callback)] := by
    simp only [StartScan, ScanningCallbacksMap.emplace, emplaceEntries, if_neg hkeys]
  have hnone : ∀ e ∈ mgr.scanning_callbacks_.entries, ¬ e.1 = id := by
    intro e he heq
    exact hkeys (List.mem_map.2 ⟨e, he, heq⟩)
  have hfind : (StartScan ble mgr id scan_request device_found_callback
      cb).2.scanning_callbacks_.find id = some device_found_callback := by
    have hf0 : mgr.scanning_callbacks_.entries.find? (fun e => e.1 == id) = none := by
      rw [List.find?_eq_none]
      intro e he
      simpa using hnone e he
    simp [ScanningCallbacksMap.find, hentries, List.find?_append, hf0]
  have hreg : (StartScan ble mgr id scan_request device_found_callback cb).1.id
      ∈ (StartScan ble mgr id scan_request device_found_callback cb).2.scanning_callbacks_.keys :=
    (find_isSome_iff _ _).1 (by
      have hid : (StartScan ble mgr id scan_request device_found_callback cb).1.id = id := rfl
      rw [hid, hfind]
      rfl)
  refine ⟨?_, hentries, hfind, ?_⟩
  · simp [ScanningCallbacksLengthForTest, ScanningCallbacksMap.size, hentries]
  · rw [stop_of_registered _ _ hreg]
    have hid : (StartScan ble mgr id scan_request device_found_callback cb).1.id = id := rfl
    simp only [ScanningCallbacksMap.erase, hid, hentries, List.filter_append]
    have hkeep : mgr.scanning_callbacks_.entries.filter (fun e => e.1 != id)
        = mgr.scanning_callbacks_.entries := by
      rw [List.filter_eq_self]
      intro e he
      simpa using hnone e he
    rw [hkeep]
    simp

/-- C28, at the example scenario: one scan is registered under `42`; a
`StartScan` drawing `43` registers a second callback, and stopping its session
leaves the registration of `42` alone. -/
theorem C28_fresh_id_registers_once_witness :
    (StartScan simulatedBle (StartScan simulatedBle exampleScanManager 42 0 ⟨1⟩ ⟨2, 3⟩).2
        43 0 ⟨4⟩ ⟨5, 6⟩).2.ScanningCallbacksLengthForTest = 2 ∧
      (stop_scan_callback
          (StartScan simulatedBle (StartScan simulatedBle exampleScanManager 42 0 ⟨1⟩ ⟨2, 3⟩).2
            43 0 ⟨4⟩ ⟨5, 6⟩).1
          (StartScan simulatedBle (StartScan simulatedBle exampleScanManager 42 0 ⟨1⟩ ⟨2, 3⟩).2
            43 0 ⟨4⟩ ⟨5, 6⟩).2).2.scanning_callbacks_.entries = [(42, ⟨1⟩)] :=
  ⟨(C28_fresh_id_registers_once simulatedBle
      (StartScan simulatedBle exampleScanManager 42 0 ⟨1⟩ ⟨2, 3⟩).2 43 0 ⟨4⟩ ⟨5, 6⟩
      (by decide)).1,
   (C28_fresh_id_registers_once simulatedBle
      (StartScan simulatedBle exampleScanManager 42 0 ⟨1⟩ ⟨2, 3⟩).2 43 0 ⟨4⟩ ⟨5, 6⟩
      (by decide)).2.2.2⟩

end ScanManager

/-! ## LDT encryptor -/

/-- C29, the code at the failing input: after move construction from an
encryptor holding the handle `p`, the source still holds `p`, so destroying the
source and the destination closes `p` twice.  After move assignment onto an
encryptor holding `q` the source still holds `p` as well: `p` is closed twice
and `q` never. -/
theorem C29_move_keeps_source_handle (p q : Nat) :
    (LdtEncryptor.moveConstruct ⟨some p⟩).1.ldt_handle_ = some p ∧
      (LdtEncryptor.moveConstruct ⟨some p⟩).2.ldt_handle_ = some p ∧
      LdtEncryptor.destroy (LdtEncryptor.moveConstruct ⟨some p⟩).1
          (LdtEncryptor.destroy (LdtEncryptor.moveConstruct ⟨some p⟩).2 [])
        = [LdtEvent.NpLdtClose p, LdtEvent.NpLdtClose p] ∧
      (LdtEncryptor.moveAssign ⟨some q⟩ ⟨some p⟩).2.ldt_handle_ = some p ∧
      LdtEncryptor.destroy (LdtEncryptor.moveAssign ⟨some q⟩ ⟨some p⟩).1
          (LdtEncryptor.destroy (LdtEncryptor.moveAssign ⟨some q⟩ ⟨some p⟩).2 [])
        = [LdtEvent.NpLdtClose p, LdtEvent.NpLdtClose p] := by
  exact ⟨rfl, rfl, rfl, rfl, rfl⟩

theorem FromStringView_length (N : Nat) (data : List Nat) :
    (FromStringView N data).length = N := by
  simp only [FromStringView, memcpy, List.length_append, List.length_take, List.length_drop,
    List.length_replicate]
  omega

theorem FromStringView_take (N : Nat) (data : List Nat) :
    (FromStringView N data).take (min N data.length) = data.take (min N data.length) := by
  have hlen : (data.take (min N data.length)).length = min N data.length := by
    simp only [List.length_take]
    omega
  simp only [FromStringView, memcpy]
  rw [List.take_append_of_le_length (by rw [hlen])]
  rw [List.take_take]
  simp

theorem FromStringView_drop (N : Nat) (data : List Nat) :
    (FromStringView N data).drop (min N data.length)
      = List.replicate (N - min N data.length) 0 := by
  have hlen : (data.take (min N data.length)).length = min N data.length := by
    simp only [List.length_take]
    omega
  simp only [FromStringView, memcpy]
  nth_rewrite 1 [← hlen]
  rw [List.drop_left]
  simp [List.drop_replicate]

/-- C30: for every byte string `data` and every target of `N` bytes,
`FromStringView` yields `N` bytes whose first `min(N, |data|)` bytes are the
first `min(N, |data|)` bytes of `data` and whose remaining bytes are all zero; a
shorter input is zero-padded, a longer one truncated, and the function returns
a buffer for every input.  The key seed and the metadata-key HMAC of
`LdtEncryptor::Create` are prepared the same way. -/
theorem C30_from_string_view_pads_and_truncates (N : Nat) (data : List Nat) :
    (FromStringView N data).length = N ∧
      (FromStringView N data).take (min N data.length) = data.take (min N data.length) ∧
      (FromStringView N data).drop (min N data.length)
        = List.replicate (N - min N data.length) 0 ∧
      FromStringView N data
        = data.take (min N data.length) ++ List.replicate (N - min N data.length) 0 ∧
      ldtKeySeed N data = FromStringView N data ∧
      metadataKeyHmac N data = FromStringView N data := by
  refine ⟨FromStringView_length N data, FromStringView_take N data,
    FromStringView_drop N data, ?_, rfl, rfl⟩
  have hsplit := List.take_append_drop (min N data.length) (FromStringView N data)
  rw [FromStringView_take, FromStringView_drop] at hsplit
  exact hsplit.symm

end Presence

/-! ## Bluetooth handler: the bound callback and the order of the target-side checks -/

namespace BluetoothBwuHandler

variable {σ : Type}

/-- C24: when `InitializeUpgradedMediumForEndpoint(client, s, e)` starts the
listener (address non-empty, adapter not yet accepting), the one
`StartAcceptingConnections` call it makes is for the derived id and hands over
the callback bound to `(client, s)`.  Invoked in any state with an accepted
socket `k`, that callback gives the sink the same client and an
IncomingConnection whose socket wrapper and channel both wrap `k` and are both
labelled `s`, the application service id. -/
theorem C24_callback_bound_to_client_and_service (wrap : String → String)
    (bt : BluetoothClassic σ) (h g : BluetoothBwuHandler σ) (client : ClientProxy)
    (s endpoint_id : String) (k : BluetoothSocket)
    (hmac : localAddress bt h ≠ "")
    (hacc : alreadyAccepting bt h (wrap s) = false) :
    startCalls (InitializeUpgradedMediumForEndpoint wrap bt h client s endpoint_id).2.events
        = startCalls h.events ++ [(wrap s, ⟨client, s⟩)] ∧
      sinkInvocations (invokeAcceptedCallback g ⟨client, s⟩ k).events
        = sinkInvocations g.events ++ [(client, ⟨⟨s, k⟩, ⟨s, k⟩⟩)] ∧
      (incomingConnectionOf ⟨client, s⟩ k).socket = ⟨s, k⟩ ∧
      (incomingConnectionOf ⟨client, s⟩ k).channel = ⟨s, k⟩ := by
  have hev := Initialize_events wrap bt h client s endpoint_id
  rw [if_neg hmac, hacc] at hev
  simp only [Bool.false_eq_true, if_false] at hev
  refine ⟨?_, invokeAcceptedCallback_sink g ⟨client, s⟩ k, rfl, rfl⟩
  rw [hev, startCalls_append]
  rfl

/-- C24, at the example scenario: the callback installed for client `7` and
`svc1` reports the socket `5` to the sink under the label `svc1`, not under the
derived id. -/
theorem C24_callback_bound_to_client_and_service_witness :
    alreadyAccepting simulatedBluetooth exampleInitiator (wrapWithSuffix "svc1") = false ∧
      startCalls (InitializeUpgradedMediumForEndpoint wrapWithSuffix simulatedBluetooth
          exampleInitiator 7 "svc1" "ep1").2.events
        = [("svc1_UPGRADE", ⟨7, "svc1"⟩)] ∧
      sinkInvocations (invokeAcceptedCallback
          (InitializeUpgradedMediumForEndpoint wrapWithSuffix simulatedBluetooth
            exampleInitiator 7 "svc1" "ep1").2 ⟨7, "svc1"⟩ ⟨some 5⟩).events
        = [(7, ⟨⟨"svc1", ⟨some 5⟩⟩, ⟨"svc1", ⟨some 5⟩⟩⟩)] :=
  ⟨rfl,
   (C24_callback_bound_to_client_and_service wrapWithSuffix simulatedBluetooth
      exampleInitiator exampleInitiator 7 "svc1" "ep1" ⟨some 5⟩ (by decide) rfl).1,
   (C24_callback_bound_to_client_and_service wrapWithSuffix simulatedBluetooth
      exampleInitiator
      (InitializeUpgradedMediumForEndpoint wrapWithSuffix simulatedBluetooth
        exampleInitiator 7 "svc1" "ep1").2 7 "svc1" "ep1" ⟨some 5⟩ (by decide) rfl).2.1⟩

theorem mediumCalls_append (a b : List Event) :
    mediumCalls (a ++ b) = mediumCalls a ++ mediumCalls b := by
  simp [mediumCalls, List.filter_append]

theorem Create_events_of_success (bt : BluetoothClassic σ) (h : BluetoothBwuHandler σ)
    (client : ClientProxy) (service_id endpoint_id : String) (info : UpgradePathInfo)
    (hname : info.bluetooth_credentials.has_service_name = true)
    (hmac : info.bluetooth_credentials.has_mac_address = true)
    (hdev : (resolvedDevice bt h info.bluetooth_credentials.mac_address).IsValid = true)
    (hsock : (connectedSocket bt h info.bluetooth_credentials.mac_address
      info.bluetooth_credentials.service_name).IsValid = true) :
    (CreateUpgradedEndpointChannel bt h client service_id endpoint_id info).2.events
      = h.events ++
        [Event.GetRemoteDevice info.bluetooth_credentials.mac_address,
         Event.Connect (resolvedDevice bt h info.bluetooth_credentials.mac_address)
           info.bluetooth_credentials.service_name,
         Event.MakeEndpointChannel info.bluetooth_credentials.service_name
           (connectedSocket bt h info.bluetooth_credentials.mac_address
             info.bluetooth_credentials.service_name)] := by
  have hdev2 : (callGetRemoteDevice bt h info.bluetooth_credentials.mac_address).1.IsValid
      = true := hdev
  have hsock2 : (callConnect bt
      (callGetRemoteDevice bt h info.bluetooth_credentials.mac_address).2
      (callGetRemoteDevice bt h info.bluetooth_credentials.mac_address).1
      info.bluetooth_credentials.service_name).1.IsValid = true := hsock
  simp [CreateUpgradedEndpointChannel, hname, hmac, hdev2, hsock2, makeEndpointChannel]
  simp [callConnect, callGetRemoteDevice, resolvedDevice, connectedSocket]

/-- C25: in every call of `CreateUpgradedEndpointChannel` the adapter calls made
are an initial part of `GetRemoteDevice(credential MAC address)`,
`Connect(resolved device, credential service name)`: none when a field is
absent, the first alone when both fields are present and the device is invalid,
both when both fields are present and the device is valid.  The result does not
depend on the caller's client, service id or endpoint id. -/
theorem C25_target_checks_in_order (bt : BluetoothClassic σ) (h : BluetoothBwuHandler σ)
    (client : ClientProxy) (service_id endpoint_id : String) (info : UpgradePathInfo) :
    (∃ calls : List Event,
        mediumCalls
            (CreateUpgradedEndpointChannel bt h client service_id endpoint_id info).2.events
          = mediumCalls h.events ++ calls ∧
        calls <+:
          [Event.GetRemoteDevice info.bluetooth_credentials.mac_address,
           Event.Connect (resolvedDevice bt h info.bluetooth_credentials.mac_address)
             info.bluetooth_credentials.service_name] ∧
        ((calls = [] ∧
            (info.bluetooth_credentials.has_service_name = false ∨
              info.bluetooth_credentials.has_mac_address = false)) ∨
          (calls = [Event.GetRemoteDevice info.bluetooth_credentials.mac_address] ∧
            info.bluetooth_credentials.has_service_name = true ∧
            info.bluetooth_credentials.has_mac_address = true ∧
            (resolvedDevice bt h info.bluetooth_credentials.mac_address).IsValid = false) ∨
          (calls =
              [Event.GetRemoteDevice info.bluetooth_credentials.mac_address,
               Event.Connect (resolvedDevice bt h info.bluetooth_credentials.mac_address)
                 info.bluetooth_credentials.service_name] ∧
            info.bluetooth_credentials.has_service_name = true ∧
            info.bluetooth_credentials.has_mac_address = true ∧
            (resolvedDevice bt h info.bluetooth_credentials.mac_address).IsValid = true))) ∧
      ∀ (client2 : ClientProxy) (service_id2 endpoint_id2 : String),
        CreateUpgradedEndpointChannel bt h client2 service_id2 endpoint_id2 info
          = CreateUpgradedEndpointChannel bt h client service_id endpoint_id info := by
  refine ⟨?_, fun _ _ _ => rfl⟩
  by_cases hfields : info.bluetooth_credentials.has_service_name = false ∨
      info.bluetooth_credentials.has_mac_address = false
  · refine ⟨[], ?_, List.nil_prefix, Or.inl ⟨rfl, hfields⟩⟩
    rw [Create_of_missing bt h client service_id endpoint_id info hfields]
    simp
  · have hname : info.bluetooth_credentials.has_service_name = true := by
      cases hv : info.bluetooth_credentials.has_service_name with
      | true => rfl
      | false => exact absurd (Or.inl hv) hfields
    have hmac : info.bluetooth_credentials.has_mac_address = true := by
      cases hv : info.bluetooth_credentials.has_mac_address with
      | true => rfl
      | false => exact absurd (Or.inr hv) hfields
    cases hdev : (resolvedDevice bt h info.bluetooth_credentials.mac_address).IsValid with
    | false =>
      refine ⟨[Event.GetRemoteDevice info.bluetooth_credentials.mac_address], ?_,
        ⟨[Event.Connect (resolvedDevice bt h info.bluetooth_credentials.mac_address)
            info.bluetooth_credentials.service_name], rfl⟩,
        Or.inr (Or.inl ⟨rfl, hname, hmac, rfl⟩)⟩
      rw [Create_of_unresolved bt h client service_id endpoint_id info hname hmac hdev]
      simp [callGetRemoteDevice, mediumCalls_append, mediumCalls, Event.isMediumCall]
    | true =>
      refine ⟨[Event.GetRemoteDevice info.bluetooth_credentials.mac_address,
          Event.Connect (resolvedDevice bt h info.bluetooth_credentials.mac_address)
            info.bluetooth_credentials.service_name], ?_, List.prefix_refl _,
        Or.inr (Or.inr ⟨rfl, hname, hmac, rfl⟩)⟩
      cases hsock : (connectedSocket bt h info.bluetooth_credentials.mac_address
          info.bluetooth_credentials.service_name).IsValid with
      | false =>
        rw [Create_of_connect_failure bt h client service_id endpoint_id info
          hname hmac hdev hsock]
        simp [callConnect, callGetRemoteDevice, mediumCalls_append, mediumCalls,
          Event.isMediumCall, resolvedDevice]
      | true =>
        rw [Create_events_of_success bt h client service_id endpoint_id info
          hname hmac hdev hsock]
        simp [mediumCalls_append, mediumCalls, Event.isMediumCall]

end BluetoothBwuHandler

end Nearby
